import Mathlib

/-!
Verification of the ColorDescriptors repository (ColorDescriptors.py).

The Python program stores colors in a `ColorSolid` object holding optional
RGB[W] channel values, optional HSI values, an `enableWhite` flag and an
input-type tag, converts between the RGB[W] and HSI color spaces with
trigonometric formulas, encodes and decodes colors as hex descriptor
strings, and interpolates gradients between color nodes.

The embedding below models Python numbers by the real numbers (the source
computes with floats; every concrete value appearing in a theorem of this
file is a dyadic rational or a value the claim itself treats symbolically,
so the exact-real model agrees with the float computation at the inputs
used). Python `None` becomes `Option.none`; code that raises an exception is
modelled with `Option`/`Except` or an explicit crash constructor; the `round`
builtin (round half to even) and the float `%` operator are modelled
explicitly below.
-/

/-- The `_inputType` tag of a ColorSolid: which representation last drove
the object (`'rgb'`, `'rgbw'` or `'hsi'` in the source). -/
inductive InputType
  | rgb
  | rgbw
  | hsi
deriving DecidableEq, Repr

/-- The fields of the Python `ColorSolid` object: `_red`, `_green`, `_blue`,
`_white` in [0,255], `_hue` in degrees, `_saturation` and `_intensity`,
the `_enableWhite` flag and the `_inputType` tag. All value fields are
preallocated to `None` by `__init__`, hence the `Option`s. -/
structure ColorSolid where
  red : Option ℝ
  green : Option ℝ
  blue : Option ℝ
  white : Option ℝ
  hue : Option ℝ
  saturation : Option ℝ
  intensity : Option ℝ
  enableWhite : Bool
  inputType : Option InputType

/-- Python float `x % y` for `y > 0` (used as `hue % 360`): the remainder
with the sign of `y`, i.e. `x - y * floor (x / y)`. (Python raises
ZeroDivisionError at `y = 0`; no call in the source reaches that case.) -/
noncomputable def pyMod (x y : ℝ) : ℝ := x - y * ⌊x / y⌋

/-- Python 3 `round` on a real value: round half to even. -/
noncomputable def pyRound (x : ℝ) : ℤ :=
  let f := ⌊x⌋
  if x - f < 1 / 2 then f
  else if 1 / 2 < x - f then f + 1
  else if f % 2 = 0 then f else f + 1

namespace ColorSolid

/-- `ColorSolid.rgb2hsi` (source lines 319-352), on channel values 0-255.
Transcribed directly: note line 340 computes
`acos((r-g + r-b)/2 * sqrt((r-g)*(r-g) + (r-b)*(g-b)))`, a product of the
half-sum with the square root. The returned intensity is recomputed on
line 351 as the unnormalized sum `r + g + b` of the normalized channels.
`Real.arccos` is total where `math.acos` raises ValueError outside
`[-1, 1]` (reachable from `parse ("cff-f-f")` because hex fields may be
signed); the predicate `rgb2hsiRaises` below captures exactly the inputs
on which line 340 raises. -/
noncomputable def rgb2hsi (red green blue : ℝ) : ℝ × ℝ × ℝ :=
  let r := red / 255
  let g := green / 255
  let b := blue / 255
  let minimum := min r (min g b)
  let maximum := max r (max g b)
  let intensity := (r + g + b) / 3
  let saturation := if intensity = 0 then 0 else 1 - minimum / intensity
  let hue := Real.arccos ((r - g + (r - b)) / 2 * Real.sqrt ((r - g) * (r - g) + (r - b) * (g - b)))
  let hue := if b > g then 2 * Real.pi - hue else hue
  let hue := if minimum = maximum then 0 else hue
  let hue := hue * 180 / Real.pi
  let intensity := r + g + b
  (hue, saturation, intensity)

/-- `ColorSolid.rgbw2hsi` (source lines 248-316). The source first replaces
`None` arguments by 0, so the arguments are `Option`s here. This totalized
transcription uses the Lean convention `x / 0 = 0` where Python raises
ZeroDivisionError (the saturation quotient when `red+green+blue+white = 0`
with `white ≠ 0`, reachable from `parse ("c-5000005")` because hex fields
may be signed) and total `Real.arccos` where `math.acos` raises ValueError
outside `[-1, 1]`; the predicate `rgbw2hsiRaises` below captures exactly
the inputs on which the Python code raises, and `parseCharsFull` is the
crash-faithful decoder built on it. -/
noncomputable def rgbw2hsi (red green blue white : Option ℝ) : ℝ × ℝ × ℝ :=
  let red := red.getD 0
  let green := green.getD 0
  let blue := blue.getD 0
  let white := white.getD 0
  if white = 0 then rgb2hsi red green blue
  else
    let saturation := (red + green + blue) / (red + green + blue + white)
    let intensity := (red + green + blue + white) / 255
    if red = 0 ∧ green = 0 ∧ blue = 0 then (0, saturation, intensity)
    else if red = 0 ∧ green = 0 then (240, saturation, intensity)
    else if green = 0 ∧ blue = 0 then (0, saturation, intensity)
    else if blue = 0 ∧ red = 0 then (120, saturation, intensity)
    else if red = 0 then
      let hue := 2 * Real.arctan ((2 * Real.sqrt (blue ^ 2 - blue * green + green ^ 2) - 2 * green + blue) / (Real.sqrt 3 * blue))
      let hue := hue + 2 / 3 * Real.pi
      (hue * 180 / Real.pi, saturation, intensity)
    else if green = 0 then
      let hue := 2 * Real.arctan ((2 * Real.sqrt (blue ^ 2 - blue * red + red ^ 2) - 2 * blue + red) / (Real.sqrt 3 * red))
      let hue := hue + 4 / 3 * Real.pi
      (hue * 180 / Real.pi, saturation, intensity)
    else if blue = 0 then
      let hue := 2 * Real.arctan ((2 * Real.sqrt (green ^ 2 - green * red + red ^ 2) - 2 * red + green) / (Real.sqrt 3 * green))
      (hue * 180 / Real.pi, saturation, intensity)
    else
      let r := red / 255
      let g := green / 255
      let b := blue / 255
      let hue := Real.arccos ((r - g + (r - b)) / 2 * Real.sqrt ((r - g) * (r - g) + (r - b) * (g - b)))
      let hue := if blue > green then 2 * Real.pi - hue else hue
      let hue := hue * 180 / Real.pi
      let intensity := (red + green + blue) / (255 * 3)
      let saturation := 1 - min r (min g b) / intensity
      let saturation := saturation * (255 - white) / 255
      let intensity := (red + green + blue + white) / 255
      (hue, saturation, intensity)

/-- `ColorSolid.hsi2rgb` (source lines 389-419): hue reduced mod 360 then to
radians, saturation clamped to [0,1], intensity to [0,3], three 120-degree
sectors, channels finally clamped to [0,255]. -/
noncomputable def hsi2rgb (hue saturation intensity : ℝ) : ℝ × ℝ × ℝ :=
  let hue := pyMod hue 360
  let hue := Real.pi * hue / 180
  let saturation := if saturation > 0 then (if saturation < 1 then saturation else 1) else 0
  let intensity := if intensity > 0 then (if intensity < 3 then intensity else 3) else 0
  let rgb :=
    if hue < 2 / 3 * Real.pi then
      (saturation * intensity / 3 * (1 + saturation * Real.cos hue / Real.cos (Real.pi / 3 - hue)) * 255,
       saturation * intensity / 3 * (1 + saturation * (1 - Real.cos hue / Real.cos (Real.pi / 3 - hue))) * 255,
       intensity / 3 * (1 - saturation) * 255)
    else if hue < 4 / 3 * Real.pi then
      let hue := hue - 2 / 3 * Real.pi
      (intensity / 3 * (1 - saturation) * 255,
       saturation * intensity / 3 * (1 + saturation * Real.cos hue / Real.cos (Real.pi / 3 - hue)) * 255,
       saturation * intensity / 3 * (1 + saturation * (1 - Real.cos hue / Real.cos (Real.pi / 3 - hue))) * 255)
    else
      let hue := hue - 4 / 3 * Real.pi
      (saturation * intensity / 3 * (1 + saturation * (1 - Real.cos hue / Real.cos (Real.pi / 3 - hue))) * 255,
       intensity / 3 * (1 - saturation) * 255,
       saturation * intensity / 3 * (1 + saturation * Real.cos hue / Real.cos (Real.pi / 3 - hue)) * 255)
  (if rgb.1 > 0 then (if rgb.1 < 255 then rgb.1 else 255) else 0,
   if rgb.2.1 > 0 then (if rgb.2.1 < 255 then rgb.2.1 else 255) else 0,
   if rgb.2.2 > 0 then (if rgb.2.2 < 255 then rgb.2.2 else 255) else 0)

/-- `ColorSolid.hsi2rgbw` (source lines 354-387): like `hsi2rgb` but with
intensity clamped to [0,4], no inner saturation factor on the chromatic
terms, and a fourth white channel `(1-s)*i*255`. -/
noncomputable def hsi2rgbw (hue saturation intensity : ℝ) : ℝ × ℝ × ℝ × ℝ :=
  let hue := pyMod hue 360
  let hue := Real.pi * hue / 180
  let saturation := if saturation > 0 then (if saturation < 1 then saturation else 1) else 0
  let intensity := if intensity > 0 then (if intensity < 4 then intensity else 4) else 0
  let rgb :=
    if hue < 2 / 3 * Real.pi then
      (saturation * intensity / 3 * (1 + Real.cos hue / Real.cos (Real.pi / 3 - hue)) * 255,
       saturation * intensity / 3 * (1 + (1 - Real.cos hue / Real.cos (Real.pi / 3 - hue))) * 255,
       (0 : ℝ))
    else if hue < 4 / 3 * Real.pi then
      let hue := hue - 2 / 3 * Real.pi
      ((0 : ℝ),
       saturation * intensity / 3 * (1 + Real.cos hue / Real.cos (Real.pi / 3 - hue)) * 255,
       saturation * intensity / 3 * (1 + (1 - Real.cos hue / Real.cos (Real.pi / 3 - hue))) * 255)
    else
      let hue := hue - 4 / 3 * Real.pi
      (saturation * intensity / 3 * (1 + (1 - Real.cos hue / Real.cos (Real.pi / 3 - hue))) * 255,
       (0 : ℝ),
       saturation * intensity / 3 * (1 + Real.cos hue / Real.cos (Real.pi / 3 - hue)) * 255)
  let w := (1 - saturation) * intensity * 255
  (if rgb.1 > 0 then (if rgb.1 < 255 then rgb.1 else 255) else 0,
   if rgb.2.1 > 0 then (if rgb.2.1 < 255 then rgb.2.1 else 255) else 0,
   if rgb.2.2 > 0 then (if rgb.2.2 < 255 then rgb.2.2 else 255) else 0,
   if w > 0 then (if w < 255 then w else 255) else 0)

/-- `ColorSolid.__init__` (source lines 39-84). The Python signature defaults
are `red=green=blue=white=None`, `hue=0`, `saturation=1.0`, `intensity=1.0`,
`enableWhite=True`; every call site below passes all arguments explicitly
with those defaults filled in. When neither a complete RGB tuple nor a
complete HSI tuple is present the source prints a warning and leaves the
object unconfigured (all value fields `None`, `_inputType` `None`): that
soft-failure object is the last branch here. -/
noncomputable def init (red green blue white hue saturation intensity : Option ℝ)
    (enableWhite : Bool) : ColorSolid :=
  match red, green, blue with
  | some r, some g, some b =>
    let t := if enableWhite then rgbw2hsi red green blue white else rgb2hsi r g b
    { red := red, green := green, blue := blue,
      white := if enableWhite then white else none,
      hue := some t.1, saturation := some t.2.1, intensity := some t.2.2,
      enableWhite := enableWhite,
      inputType := some (if enableWhite then InputType.rgbw else InputType.rgb) }
  | _, _, _ =>
    match hue, saturation, intensity with
    | some h, some s, some i =>
      if enableWhite then
        let q := hsi2rgbw h s i
        { red := some q.1, green := some q.2.1, blue := some q.2.2.1, white := some q.2.2.2,
          hue := hue, saturation := saturation, intensity := intensity,
          enableWhite := enableWhite, inputType := some InputType.hsi }
      else
        let q := hsi2rgb h s i
        { red := some q.1, green := some q.2.1, blue := some q.2.2, white := none,
          hue := hue, saturation := saturation, intensity := intensity,
          enableWhite := enableWhite, inputType := some InputType.hsi }
    | _, _, _ =>
      { red := none, green := none, blue := none, white := none,
        hue := none, saturation := none, intensity := none,
        enableWhite := enableWhite, inputType := none }

/-- The `white` property getter (source lines 146-151): returns `_white`
only when `_enableWhite` is true, else `None`. -/
def whiteGet (c : ColorSolid) : Option ℝ :=
  if c.enableWhite then c.white else none

end ColorSolid

/-! ### Hex formatting and Python `int(s, 16)` parsing -/

/-- The hex digit characters used by Python `format(..., "x")` (lowercase). -/
def hexDigitChar (n : ℕ) : Char :=
  match n with
  | 0 => '0' | 1 => '1' | 2 => '2' | 3 => '3' | 4 => '4'
  | 5 => '5' | 6 => '6' | 7 => '7' | 8 => '8' | 9 => '9'
  | 10 => 'a' | 11 => 'b' | 12 => 'c' | 13 => 'd' | 14 => 'e' | 15 => 'f'
  | _ => '*'

/-- Hex digits of `n`, most significant first, for `n > 0`; the first
argument is recursion fuel (any fuel above the digit count gives the full
representation). -/
def natHexAux : ℕ → ℕ → List Char
  | 0, _ => []
  | fuel + 1, n => if n = 0 then [] else natHexAux fuel (n / 16) ++ [hexDigitChar (n % 16)]

/-- Hex representation of a natural number, as Python `format(n, "x")`. -/
def natHex (n : ℕ) : List Char :=
  if n = 0 then ['0'] else natHexAux (n + 1) n

/-- Python `format(z, "0Nx")`: hex digits zero-padded to width `width`; for a
negative value the sign comes first and counts toward the width. -/
def pyHexPad (width : ℕ) (z : ℤ) : List Char :=
  if z < 0 then
    let d := natHex (-z).toNat
    '-' :: (List.replicate (width - 1 - d.length) '0' ++ d)
  else
    let d := natHex z.toNat
    List.replicate (width - d.length) '0' ++ d

/-- The numeric value of one hex digit character, as accepted by Python
`int(s, 16)` (both cases). -/
def hexVal (c : Char) : Option ℕ :=
  if '0' ≤ c ∧ c ≤ '9' then some (c.toNat - '0'.toNat)
  else if 'a' ≤ c ∧ c ≤ 'f' then some (c.toNat - 'a'.toNat + 10)
  else if 'A' ≤ c ∧ c ≤ 'F' then some (c.toNat - 'A'.toNat + 10)
  else none

/-- Continuation of `hexSeq`: digits already read are in `acc`; a single
underscore is allowed between two digits (Python digit grouping). -/
def hexSeqAux : ℕ → List Char → Option ℕ
  | acc, [] => some acc
  | _, ['_'] => none
  | acc, '_' :: c :: rest =>
    match hexVal c with
    | some d => hexSeqAux (16 * acc + d) rest
    | none => none
  | acc, c :: rest =>
    match hexVal c with
    | some d => hexSeqAux (16 * acc + d) rest
    | none => none

/-- A nonempty hex digit sequence with optional single underscores between
digits, as Python `int(s, 16)` accepts after the sign and base marker. -/
def hexSeq : List Char → Option ℕ
  | [] => none
  | c :: rest =>
    match hexVal c with
    | some d => hexSeqAux d rest
    | none => none

/-- Digits after a `0x`/`0X` base marker: Python also allows one underscore
directly after the marker. -/
def hexAfterBase : List Char → Option ℕ
  | '_' :: rest => hexSeq rest
  | rest => hexSeq rest

/-- The unsigned part of Python `int(s, 16)`: an optional `0x`/`0X` base
marker, then hex digits. -/
def pyIntHexBody (l : List Char) : Option ℕ :=
  match l with
  | '0' :: 'x' :: rest => hexAfterBase rest
  | '0' :: 'X' :: rest => hexAfterBase rest
  | _ => hexSeq l

/-- The ASCII whitespace Python `int` strips from both ends. -/
def pyIsSpace (c : Char) : Bool :=
  c = ' ' || c = '\t' || c = '\n' || c = '\x0d' || c = '\x0b' || c = '\x0c'

/-- Strip leading and trailing whitespace. -/
def pyStrip (l : List Char) : List Char :=
  ((l.dropWhile pyIsSpace).reverse.dropWhile pyIsSpace).reverse

/-- Python `int(s, 16)` on a character list: strip whitespace, optional
sign, optional `0x` marker, hex digits with optional grouping underscores;
`none` models the ValueError Python raises on anything else. -/
def pyIntHex (l : List Char) : Option ℤ :=
  match pyStrip l with
  | '+' :: rest => (pyIntHexBody rest).map (fun n => (n : ℤ))
  | '-' :: rest => (pyIntHexBody rest).map (fun n => -(n : ℤ))
  | rest => (pyIntHexBody rest).map (fun n => (n : ℤ))

/-- Evaluate `f` left to right over a list, stopping at the first `none`:
the Option image of a Python list comprehension whose body can raise. -/
def optTraverse {α β : Type} (f : α → Option β) : List α → Option (List β)
  | [] => some []
  | a :: as =>
    match f a with
    | none => none
    | some b =>
      match optTraverse f as with
      | none => none
      | some bs => some (b :: bs)

/-- The 2-character slices `s[i:i+2]` for `i = 1, 3, 5, ...` take from the
character after the prefix (a trailing odd character would give a
1-character slice, as in Python). -/
def chunks2 : List Char → List (List Char)
  | [] => []
  | [a] => [[a]]
  | a :: b :: rest => [a, b] :: chunks2 rest

/-- The 3-character slices `s[i:i+3]` for `i = 1, 4, 7, ...`. -/
def chunks3 : List Char → List (List Char)
  | [] => []
  | [a] => [[a]]
  | [a, b] => [[a, b]]
  | a :: b :: c :: rest => [a, b, c] :: chunks3 rest

/-- Lowercase one ASCII character, as `str.lower()` does per character. -/
def asciiLower (c : Char) : Char :=
  if 'A' ≤ c ∧ c ≤ 'Z' then Char.ofNat (c.toNat + 32) else c

/-- `str.lower()` on a character list. -/
def pyLower (l : List Char) : List Char := l.map asciiLower

namespace ColorSolid

/-- How `ColorSolid.parse` fails (source lines 212-246): `raised` models an
exception propagating to the caller (the explicit `Exception` for short
input, or the ValueError from `int(...)` on a bad hex field), `printedNone`
the paths that print a message and return `None`. Both are explicit
failures: `parse` never returns `None` on success, so a `None` result (or an
exception) is distinguishable from a parsed color. -/
inductive PErr
  | raised
  | printedNone
deriving DecidableEq, Repr

/-- `ColorSolid.parse` (source lines 212-246) on a character list. The
`type(strIn) != str` check cannot fail here since the input is a string by
type. In the HSI branches Python indexes `splitStr[0..2]` directly; the
slice count is forced to 3 by the length checks, and the unreachable
shorter case is modelled as `raised` (IndexError). -/
noncomputable def parseChars (l : List Char) : Except PErr ColorSolid :=
  if l.length ≤ 1 then .error .raised
  else
    let low := pyLower l
    if low.head? = some 'c' then
      if ¬(l.length = 7 ∨ l.length = 9) then .error .printedNone
      else
        match optTraverse pyIntHex (chunks2 (l.drop 1)) with
        | none => .error .raised
        | some vals =>
          match vals with
          | [r, g, b] =>
            .ok (init (some (r : ℝ)) (some (g : ℝ)) (some (b : ℝ)) none
              (some 0) (some 1) (some 1) false)
          | [r, g, b, w] =>
            .ok (init (some (r : ℝ)) (some (g : ℝ)) (some (b : ℝ)) (some (w : ℝ))
              (some 0) (some 1) (some 1) true)
          | _ => .error .printedNone
    else if low.head? = some 'h' ∧ low.getLast? = some 'w' then
      if ¬(l.length = 11) then .error .printedNone
      else
        match optTraverse pyIntHex (chunks3 (l.dropLast.drop 1)) with
        | none => .error .raised
        | some vals =>
          match vals with
          | [h, s, i] =>
            .ok (init none none none none
              (some (h : ℝ)) (some ((s : ℝ) / 255)) (some ((i : ℝ) / 255)) true)
          | _ => .error .raised
    else if low.head? = some 'h' ∧ ¬(low.getLast? = some 'w') then
      if ¬(l.length = 10) then .error .printedNone
      else
        match optTraverse pyIntHex (chunks3 (l.drop 1)) with
        | none => .error .raised
        | some vals =>
          match vals with
          | [h, s, i] =>
            .ok (init none none none none
              (some (h : ℝ)) (some ((s : ℝ) / 255)) (some ((i : ℝ) / 255)) false)
          | _ => .error .raised
    else .error .printedNone

/-- `ColorSolid.parse` on a string. -/
noncomputable def parse (s : String) : Except PErr ColorSolid :=
  parseChars s.data

/-- `ColorSolid.toString` (source lines 94-105). The result is `none` both
on the fall-through path (no branch matches: Python returns `None`) and
when a field the chosen branch formats is missing (Python raises a
TypeError in `round`); neither arises for a configured color. In the RGBW
branch the white value comes from the gated `white` property, with `None`
replaced by 0. In the HSI branch the hue is reduced mod 360 unless it is
exactly 360, and a trailing `w` marks a white-enabled color. -/
noncomputable def toString (c : ColorSolid) (forceMode : Option InputType) : Option String :=
  if forceMode = some InputType.rgb ∨ c.inputType = some InputType.rgb then do
    let rv ← c.red
    let gv ← c.green
    let bv ← c.blue
    pure (String.mk ('c' :: (pyHexPad 2 (pyRound rv) ++ pyHexPad 2 (pyRound gv) ++
      pyHexPad 2 (pyRound bv))))
  else if forceMode = some InputType.rgbw ∨ c.inputType = some InputType.rgbw then do
    let wv := (whiteGet c).getD 0
    let rv ← c.red
    let gv ← c.green
    let bv ← c.blue
    pure (String.mk ('c' :: (pyHexPad 2 (pyRound rv) ++ pyHexPad 2 (pyRound gv) ++
      pyHexPad 2 (pyRound bv) ++ pyHexPad 2 (pyRound wv))))
  else if forceMode = some InputType.hsi ∨ c.inputType = some InputType.hsi then do
    let hv ← c.hue
    let sv ← c.saturation
    let iv ← c.intensity
    let hval := if ¬(hv = 360) then pyMod hv 360 else 360
    pure (String.mk ('h' :: (pyHexPad 3 (pyRound hval) ++ pyHexPad 3 (pyRound (sv * 255)) ++
      pyHexPad 3 (pyRound (iv * 255)) ++ (if c.enableWhite = true then ['w'] else []))))
  else none

/-- `ColorSolid.copy` (source lines 86-92): builds a fresh object from the
current (or forced) representation through the constructor, with the Python
default arguments (`white=None`, `hue=0`, `saturation=1.0`, `intensity=1.0`,
`enableWhite=True`) for everything the chosen branch does not pass. The
fall-through (unconfigured object, no force) returns `None`. -/
noncomputable def copy (c : ColorSolid) (forceMode : Option InputType) : Option ColorSolid :=
  if forceMode = some InputType.rgb ∨ c.inputType = some InputType.rgb then
    some (init c.red c.green c.blue none (some 0) (some 1) (some 1) true)
  else if forceMode = some InputType.rgbw ∨ c.inputType = some InputType.rgbw then
    some (init c.red c.green c.blue (whiteGet c) (some 0) (some 1) (some 1) true)
  else if forceMode = some InputType.hsi ∨ c.inputType = some InputType.hsi then
    some (init none none none none c.hue c.saturation c.intensity true)
  else none

/-!
Setters (source lines 110-202). Each returns the updated object and a Bool.
For `setRed`/`setGreen`/`setBlue`/`setHue`/`setSaturation`/`setIntensity`
the Bool is true when the Python setter raises a TypeError partway through
(a needed paired field is `None`): the returned object then carries exactly
the mutations made before the conversion call, as in Python. For `setWhite`
the Bool is true when the source prints the WhiteNotEnabled warning and
returns without mutating.
-/

/-- The `red` setter (source lines 110-118). -/
noncomputable def setRed (c : ColorSolid) (v : ℝ) : ColorSolid × Bool :=
  if c.enableWhite then
    let t := rgbw2hsi (some v) c.green c.blue (whiteGet { c with red := some v })
    ({ c with
        red := some v,
        inputType := some InputType.rgbw,
        hue := some t.1,
        saturation := some t.2.1,
        intensity := some t.2.2 }, false)
  else
    match c.green, c.blue with
    | some g, some b =>
      let t := rgb2hsi v g b
      ({ c with
          red := some v,
          inputType := some InputType.rgb,
          hue := some t.1,
          saturation := some t.2.1,
          intensity := some t.2.2 }, false)
    | _, _ => ({ c with red := some v, inputType := some InputType.rgb }, true)

/-- The `green` setter (source lines 123-131). -/
noncomputable def setGreen (c : ColorSolid) (v : ℝ) : ColorSolid × Bool :=
  if c.enableWhite then
    let t := rgbw2hsi c.red (some v) c.blue (whiteGet { c with green := some v })
    ({ c with
        green := some v,
        inputType := some InputType.rgbw,
        hue := some t.1,
        saturation := some t.2.1,
        intensity := some t.2.2 }, false)
  else
    match c.red, c.blue with
    | some r, some b =>
      let t := rgb2hsi r v b
      ({ c with
          green := some v,
          inputType := some InputType.rgb,
          hue := some t.1,
          saturation := some t.2.1,
          intensity := some t.2.2 }, false)
    | _, _ => ({ c with green := some v, inputType := some InputType.rgb }, true)

/-- The `blue` setter (source lines 136-144). -/
noncomputable def setBlue (c : ColorSolid) (v : ℝ) : ColorSolid × Bool :=
  if c.enableWhite then
    let t := rgbw2hsi c.red c.green (some v) (whiteGet { c with blue := some v })
    ({ c with
        blue := some v,
        inputType := some InputType.rgbw,
        hue := some t.1,
        saturation := some t.2.1,
        intensity := some t.2.2 }, false)
  else
    match c.red, c.green with
    | some r, some g =>
      let t := rgb2hsi r g v
      ({ c with
          blue := some v,
          inputType := some InputType.rgb,
          hue := some t.1,
          saturation := some t.2.1,
          intensity := some t.2.2 }, false)
    | _, _ => ({ c with blue := some v, inputType := some InputType.rgb }, true)

/-- The `white` setter (source lines 152-159): when `_enableWhite` is false
and the value is not `None` it prints a warning and returns with the object
untouched (Bool true). Otherwise it stores the value, tags the object
`'rgbw'` and resynchronizes HSI from `rgbw2hsi`; the fourth argument is the
gated `white` property read back after the assignment. -/
noncomputable def setWhite (c : ColorSolid) (v : Option ℝ) : ColorSolid × Bool :=
  if c.enableWhite = false ∧ v.isSome then (c, true)
  else
    let t := rgbw2hsi c.red c.green c.blue (whiteGet { c with white := v })
    ({ c with
        white := v,
        inputType := some InputType.rgbw,
        hue := some t.1,
        saturation := some t.2.1,
        intensity := some t.2.2 }, false)

/-- The `hue` setter (source lines 164-171). -/
noncomputable def setHue (c : ColorSolid) (v : ℝ) : ColorSolid × Bool :=
  match c.saturation, c.intensity with
  | some s, some i =>
    if c.enableWhite then
      let q := hsi2rgbw v s i
      ({ c with
          hue := some v,
          inputType := some InputType.hsi,
          red := some q.1,
          green := some q.2.1,
          blue := some q.2.2.1,
          white := some q.2.2.2 }, false)
    else
      let q := hsi2rgb v s i
      ({ c with
          hue := some v,
          inputType := some InputType.hsi,
          red := some q.1,
          green := some q.2.1,
          blue := some q.2.2 }, false)
  | _, _ => ({ c with hue := some v, inputType := some InputType.hsi }, true)

/-- The `saturation` setter (source lines 176-183). -/
noncomputable def setSaturation (c : ColorSolid) (v : ℝ) : ColorSolid × Bool :=
  match c.hue, c.intensity with
  | some h, some i =>
    if c.enableWhite then
      let q := hsi2rgbw h v i
      ({ c with
          saturation := some v,
          inputType := some InputType.hsi,
          red := some q.1,
          green := some q.2.1,
          blue := some q.2.2.1,
          white := some q.2.2.2 }, false)
    else
      let q := hsi2rgb h v i
      ({ c with
          saturation := some v,
          inputType := some InputType.hsi,
          red := some q.1,
          green := some q.2.1,
          blue := some q.2.2 }, false)
  | _, _ => ({ c with saturation := some v, inputType := some InputType.hsi }, true)

/-- The `intensity` setter (source lines 188-195). -/
noncomputable def setIntensity (c : ColorSolid) (v : ℝ) : ColorSolid × Bool :=
  match c.hue, c.saturation with
  | some h, some s =>
    if c.enableWhite then
      let q := hsi2rgbw h s v
      ({ c with
          intensity := some v,
          inputType := some InputType.hsi,
          red := some q.1,
          green := some q.2.1,
          blue := some q.2.2.1,
          white := some q.2.2.2 }, false)
    else
      let q := hsi2rgb h s v
      ({ c with
          intensity := some v,
          inputType := some InputType.hsi,
          red := some q.1,
          green := some q.2.1,
          blue := some q.2.2 }, false)
  | _, _ => ({ c with intensity := some v, inputType := some InputType.hsi }, true)

end ColorSolid

/-- One public operation on a ColorSolid: a field setter, the `enableWhite`
toggle (source lines 200-202, which only stores the flag), or `copy`. -/
inductive Op
  | opRed (v : ℝ)
  | opGreen (v : ℝ)
  | opBlue (v : ℝ)
  | opWhite (v : Option ℝ)
  | opHue (v : ℝ)
  | opSaturation (v : ℝ)
  | opIntensity (v : ℝ)
  | opEnableWhite (b : Bool)
  | opCopy (forceMode : Option InputType)

/-- Apply one operation: the resulting object and whether the operation
raised. A raising setter leaves its incomplete mutations visible, as in
Python; a `copy` that returns `None` aborts with the object unchanged. -/
noncomputable def applyOp (o : Op) (c : ColorSolid) : ColorSolid × Bool :=
  match o with
  | .opRed v => ColorSolid.setRed c v
  | .opGreen v => ColorSolid.setGreen c v
  | .opBlue v => ColorSolid.setBlue c v
  | .opWhite v => (ColorSolid.setWhite c v).1 |> fun c2 => (c2, false)
  | .opHue v => ColorSolid.setHue c v
  | .opSaturation v => ColorSolid.setSaturation c v
  | .opIntensity v => ColorSolid.setIntensity c v
  | .opEnableWhite b => ({ c with enableWhite := b }, false)
  | .opCopy f =>
    match ColorSolid.copy c f with
    | some c2 => (c2, false)
    | none => (c, true)

/-- Apply a sequence of operations left to right, stopping at the first
raise (the object reached so far is kept, as a Python caller catching the
exception would see it). -/
noncomputable def applyOps : List Op → ColorSolid → ColorSolid × Bool
  | [], c => (c, false)
  | o :: os, c =>
    match applyOp o c with
    | (c2, false) => applyOps os c2
    | (c2, true) => (c2, true)

/-! ### Gradient interpolation -/

/-- `lerp` (source lines 522-528): clamp `x` into `[x0, x1]` (upper bound
first), then divide; the division raises ZeroDivisionError when
`x1 - x0 = 0`, modelled by `none`. -/
noncomputable def lerp (x x0 x1 y0 y1 : ℝ) : Option ℝ :=
  let x := if x > x1 then x1 else x
  let x := if x < x0 then x0 else x
  if x1 - x0 = 0 then none
  else some (y0 + (y1 - y0) * ((x - x0) / (x1 - x0)))

/-- The `nodes` argument of the interpolation functions: Python `None`, a
bare ColorSolid, or a list of ColorSolids. -/
inductive PyNodes
  | absent
  | single (c : ColorSolid)
  | list (l : List ColorSolid)

/-- What an interpolation call produces: `retNone` is Python `None` (for
absent nodes), `retSingle`/`retList` normal returns, `crash` an uncaught
exception (IndexError on `nodes[-1]` for an empty list, a TypeError from
arithmetic on a missing field, or an AttributeError after a failed copy). -/
inductive InterpResult
  | crash
  | retNone
  | retSingle (c : ColorSolid)
  | retList (l : List ColorSolid)

/-- One pair block of `linearInterpHsi` (source lines 545-562): with
`steps1 = steps + 1` after the `steps = steps + 1` rebinding, the loop
runs `idx = 1 .. steps1`, at positions `(idx - 1) / steps1`, and builds
each intermediate color from the constructor with only HSI arguments. -/
noncomputable def hsiBlock (whiteEnabled : Bool) (steps1 : ℕ) (cur next : ColorSolid) :
    Option (List ColorSolid) :=
  optTraverse (fun k => do
    let p : ℝ := (k : ℝ) / (steps1 : ℝ)
    let ch ← cur.hue
    let nh ← next.hue
    let newTheta ← lerp p 0 1 ch nh
    let cs ← cur.saturation
    let ns ← next.saturation
    let newSat ← lerp p 0 1 cs ns
    let ci ← cur.intensity
    let ni ← next.intensity
    let newRho ← lerp p 0 1 ci ni
    pure (ColorSolid.init none none none none
      (some newTheta) (some newSat) (some newRho) whiteEnabled))
    (List.range steps1)

/-- `linearInterpHsi` (source lines 530-621, active code only; the long
commented-out great-circle variant in the source is dead code). The final
node is appended as a copy whose `_inputType` is then overwritten to
`'hsi'` by direct field assignment. -/
noncomputable def linearInterpHsi (nodes : PyNodes) (steps : ℕ) : InterpResult :=
  match nodes with
  | .absent => .retNone
  | .single c => .retSingle c
  | .list l =>
    if steps = 0 then .retList l
    else
      let whiteEnabled := l.any (fun c => c.enableWhite)
      let steps1 := steps + 1
      match optTraverse (fun p => hsiBlock whiteEnabled steps1 p.1 p.2) (l.zip l.tail) with
      | none => .crash
      | some blocks =>
        match l.getLast? with
        | none => .crash
        | some last =>
          match ColorSolid.copy last none with
          | none => .crash
          | some lc => .retList (blocks.flatten ++ [{ lc with inputType := some InputType.hsi }])

/-- One pair block of `linearInterpRgbw` (source lines 641-667): `steps`
intermediate colors at positions `(idx + 1) / (steps + 1)` for
`idx = 0 .. steps - 1`; each channel is rounded to an integer, and the
white channel follows the four-way `None` case split of the source using
the gated `white` property of both endpoints. -/
noncomputable def rgbwBlock (whiteEnabled : Bool) (steps : ℕ) (cur next : ColorSolid) :
    Option (List ColorSolid) :=
  optTraverse (fun k => do
    let p : ℝ := ((k : ℝ) + 1) / ((steps : ℝ) + 1)
    let cr ← cur.red
    let nr ← next.red
    let vR ← lerp p 0 1 cr nr
    let cg ← cur.green
    let ng ← next.green
    let vG ← lerp p 0 1 cg ng
    let cb ← cur.blue
    let nb ← next.blue
    let vB ← lerp p 0 1 cb nb
    let w ← (match ColorSolid.whiteGet cur, ColorSolid.whiteGet next with
      | none, some nw => (lerp p 0 1 0 nw).map (fun v => some ((pyRound v : ℤ) : ℝ))
      | some cw, none => (lerp p 0 1 cw 0).map (fun v => some ((pyRound v : ℤ) : ℝ))
      | some cw, some nw => (lerp p 0 1 cw nw).map (fun v => some ((pyRound v : ℤ) : ℝ))
      | none, none => some none)
    pure (ColorSolid.init (some ((pyRound vR : ℤ) : ℝ)) (some ((pyRound vG : ℤ) : ℝ))
      (some ((pyRound vB : ℤ) : ℝ)) w (some 0) (some 1) (some 1) whiteEnabled))
    (List.range steps)

/-- `linearInterpRgbw` (source lines 623-673). Each pair block starts with
the pair's first color itself; the final node is appended as a copy whose
`_inputType` is overwritten to `'rgbw'`. -/
noncomputable def linearInterpRgbw (nodes : PyNodes) (steps : ℕ) : InterpResult :=
  match nodes with
  | .absent => .retNone
  | .single c => .retSingle c
  | .list l =>
    if steps = 0 then .retList l
    else
      let whiteEnabled := l.any (fun c => c.enableWhite)
      match optTraverse (fun p => (rgbwBlock whiteEnabled steps p.1 p.2).map (fun xs => p.1 :: xs))
          (l.zip l.tail) with
      | none => .crash
      | some blocks =>
        match l.getLast? with
        | none => .crash
        | some last =>
          match ColorSolid.copy last none with
          | none => .crash
          | some lc => .retList (blocks.flatten ++ [{ lc with inputType := some InputType.rgbw }])

/-! ### Definitions used to state the claims -/

/-- The decode failure condition exactly as the claim states it: input of
length at most 1 (including empty); a prefix that is neither `c` nor `h`;
a `c` string whose length is not 7 or 9; an `h` string whose length is not
10 (no trailing `w`) or 11 (with trailing `w`); or some hex field of the
chosen format failing to parse. Prefix and suffix checks are on the
lowercased string, as in the source. -/
def specDecodeFail (l : List Char) : Prop :=
  l.length ≤ 1 ∨
  (¬ (pyLower l).head? = some 'c' ∧ ¬ (pyLower l).head? = some 'h') ∨
  ((pyLower l).head? = some 'c' ∧ ¬(l.length = 7 ∨ l.length = 9)) ∨
  ((pyLower l).head? = some 'h' ∧ (pyLower l).getLast? = some 'w' ∧
    ¬(l.length = 11)) ∨
  ((pyLower l).head? = some 'h' ∧ ¬((pyLower l).getLast? = some 'w') ∧
    ¬(l.length = 10)) ∨
  ((pyLower l).head? = some 'c' ∧ (l.length = 7 ∨ l.length = 9) ∧
    ∃ f ∈ chunks2 (l.drop 1), pyIntHex f = none) ∨
  ((pyLower l).head? = some 'h' ∧ (pyLower l).getLast? = some 'w' ∧
    l.length = 11 ∧ ∃ f ∈ chunks3 (l.dropLast.drop 1), pyIntHex f = none) ∨
  ((pyLower l).head? = some 'h' ∧ ¬((pyLower l).getLast? = some 'w') ∧
    l.length = 10 ∧ ∃ f ∈ chunks3 (l.drop 1), pyIntHex f = none)

namespace ColorSolid

/-- The domain of `math.acos`: Python raises ValueError outside it,
while Mathlib `Real.arccos` is total. -/
def acosDomain (x : ℝ) : Prop := -1 ≤ x ∧ x ≤ 1

/-- The argument the source passes to `acos` on line 340, as a function
of the raw channel values. -/
noncomputable def rgb2hsiAcosArg (red green blue : ℝ) : ℝ :=
  let r := red / 255
  let g := green / 255
  let b := blue / 255
  (r - g + (r - b)) / 2 * Real.sqrt ((r - g) * (r - g) + (r - b) * (g - b))

/-- Exactly the inputs on which Python `rgb2hsi` raises: line 340 feeds
`math.acos` an argument outside `[-1, 1]` (a ValueError). Nothing else in
`rgb2hsi` can raise: the radicand under the square root is a nonnegative
quadratic (`hue_radicand_nonneg`), and the saturation quotient is guarded
by the `intensity != 0` test. Unreachable from channels in [0, 255] but
reachable through `parse`, whose hex fields may be signed. -/
noncomputable def rgb2hsiRaises (red green blue : ℝ) : Prop :=
  ¬ acosDomain (rgb2hsiAcosArg red green blue)

/-- Exactly the inputs on which Python `rgbw2hsi` raises, following the
branch structure of source lines 248-316: with `white = 0` it delegates to
`rgb2hsi`; otherwise the saturation quotient on line 262 raises
ZeroDivisionError when `red+green+blue+white = 0`; the three-zero and
two-zero branches return constants and the single-zero `atan` branches
divide by `sqrt(3)` times a channel that the guard makes nonzero, so none
of them raise; the general branch raises when its `acos` argument leaves
`[-1, 1]` (ValueError, line 305) or `red+green+blue = 0` makes the
recomputed intensity divide by zero (line 311). -/
noncomputable def rgbw2hsiRaises (red green blue white : Option ℝ) : Prop :=
  let red := red.getD 0
  let green := green.getD 0
  let blue := blue.getD 0
  let white := white.getD 0
  if white = 0 then rgb2hsiRaises red green blue
  else if red + green + blue + white = 0 then True
  else if red = 0 ∧ green = 0 ∧ blue = 0 then False
  else if red = 0 ∧ green = 0 then False
  else if green = 0 ∧ blue = 0 then False
  else if blue = 0 ∧ red = 0 then False
  else if red = 0 then False
  else if green = 0 then False
  else if blue = 0 then False
  else ¬ acosDomain (rgb2hsiAcosArg red green blue) ∨ red + green + blue = 0

/-- The only way Python `hsi2rgb` or `hsi2rgbw` could raise: each
120-degree sector divides by `cos(pi/3 - hue)` with the sector-shifted
hue. `hsiSector_no_raise` proves the cosine is always at least 1/2, so
HSI construction never raises and decoding `h` strings adds no failure
beyond the explicit conditions. -/
noncomputable def hsiSectorRaises (hue : ℝ) : Prop :=
  let hue := pyMod hue 360
  let hue := Real.pi * hue / 180
  if hue < 2 / 3 * Real.pi then Real.cos (Real.pi / 3 - hue) = 0
  else if hue < 4 / 3 * Real.pi then Real.cos (Real.pi / 3 - (hue - 2 / 3 * Real.pi)) = 0
  else Real.cos (Real.pi / 3 - (hue - 4 / 3 * Real.pi)) = 0

end ColorSolid

namespace ColorSolid

open scoped Classical in
/-- Crash-faithful variant of `parseChars` (same decode cascade on the
same source lines): where the totalized `rgb2hsi` / `rgbw2hsi` /
`hsi2rgb(w)` inside `init` absorb a Python ValueError or
ZeroDivisionError, this decoder returns `.error .raised`, guarded by the
raise predicates above at exactly the conversion the constructor of each
branch performs. -/
noncomputable def parseCharsFull (l : List Char) : Except PErr ColorSolid :=
  if l.length ≤ 1 then .error .raised
  else
    let low := pyLower l
    if low.head? = some 'c' then
      if ¬(l.length = 7 ∨ l.length = 9) then .error .printedNone
      else
        match optTraverse pyIntHex (chunks2 (l.drop 1)) with
        | none => .error .raised
        | some vals =>
          match vals with
          | [r, g, b] =>
            if rgb2hsiRaises (r : ℝ) (g : ℝ) (b : ℝ) then .error .raised
            else .ok (init (some (r : ℝ)) (some (g : ℝ)) (some (b : ℝ)) none
              (some 0) (some 1) (some 1) false)
          | [r, g, b, w] =>
            if rgbw2hsiRaises (some (r : ℝ)) (some (g : ℝ)) (some (b : ℝ)) (some (w : ℝ)) then
              .error .raised
            else .ok (init (some (r : ℝ)) (some (g : ℝ)) (some (b : ℝ)) (some (w : ℝ))
              (some 0) (some 1) (some 1) true)
          | _ => .error .printedNone
    else if low.head? = some 'h' ∧ low.getLast? = some 'w' then
      if ¬(l.length = 11) then .error .printedNone
      else
        match optTraverse pyIntHex (chunks3 (l.dropLast.drop 1)) with
        | none => .error .raised
        | some vals =>
          match vals with
          | [h, s, i] =>
            if hsiSectorRaises (h : ℝ) then .error .raised
            else .ok (init none none none none
              (some (h : ℝ)) (some ((s : ℝ) / 255)) (some ((i : ℝ) / 255)) true)
          | _ => .error .raised
    else if low.head? = some 'h' ∧ ¬(low.getLast? = some 'w') then
      if ¬(l.length = 10) then .error .printedNone
      else
        match optTraverse pyIntHex (chunks3 (l.drop 1)) with
        | none => .error .raised
        | some vals =>
          match vals with
          | [h, s, i] =>
            if hsiSectorRaises (h : ℝ) then .error .raised
            else .ok (init none none none none
              (some (h : ℝ)) (some ((s : ℝ) / 255)) (some ((i : ℝ) / 255)) false)
          | _ => .error .raised
    else .error .printedNone

/-- Crash-faithful `parse`: `parseCharsFull` on the character list. -/
noncomputable def parseFull (s : String) : Except PErr ColorSolid :=
  parseCharsFull s.data

end ColorSolid

/-- The failure condition of the crash-faithful decoder: the explicit
conditions of `specDecodeFail` plus the numeric raises - a 7-character `c`
string whose decoded triple makes `rgb2hsi` raise, or a 9-character `c`
string whose decoded quadruple makes `rgbw2hsi` raise. There is no
disjunct for `h` strings: their sector divisions never vanish
(`hsiSector_no_raise`). -/
noncomputable def specDecodeFailFull (l : List Char) : Prop :=
  specDecodeFail l ∨
  ((pyLower l).head? = some 'c' ∧ l.length = 7 ∧
    ∃ r g b : ℤ, optTraverse pyIntHex (chunks2 (l.drop 1)) = some [r, g, b] ∧
      ColorSolid.rgb2hsiRaises (r : ℝ) (g : ℝ) (b : ℝ)) ∨
  ((pyLower l).head? = some 'c' ∧ l.length = 9 ∧
    ∃ r g b w : ℤ, optTraverse pyIntHex (chunks2 (l.drop 1)) = some [r, g, b, w] ∧
      ColorSolid.rgbw2hsiRaises (some (r : ℝ)) (some (g : ℝ)) (some (b : ℝ)) (some (w : ℝ)))

/-- The hue computation exactly as claim C3 words it, on channels already
normalized to [0, 1]: acos of the half-sum DIVIDED by twice the square
root, converted to degrees, flipped to `360 - hue` when `b > g`, and set
to 0 at the achromatic boundary. This is the comparison definition taken
from the claim (and from the converter source the code comment cites),
not from the code. -/
noncomputable def hueClaimFormula (r g b : ℝ) : ℝ :=
  let minimum := min r (min g b)
  let maximum := max r (max g b)
  let hue := Real.arccos (((r - g) + (r - b)) /
    (2 * Real.sqrt ((r - g) * (r - g) + (r - b) * (g - b)))) * 180 / Real.pi
  let hue := if b > g then 360 - hue else hue
  if minimum = maximum then 0 else hue

/-- The node decoded from `cff000000`. -/
noncomputable def c4nodeA : ColorSolid :=
  ColorSolid.init (some ((255 : ℤ) : ℝ)) (some ((0 : ℤ) : ℝ)) (some ((0 : ℤ) : ℝ))
    (some ((0 : ℤ) : ℝ)) (some 0) (some 1) (some 1) true

/-- The node decoded from `c00ff0000`. -/
noncomputable def c4nodeB : ColorSolid :=
  ColorSolid.init (some ((0 : ℤ) : ℝ)) (some ((255 : ℤ) : ℝ)) (some ((0 : ℤ) : ℝ))
    (some ((0 : ℤ) : ℝ)) (some 0) (some 1) (some 1) true

/-- The midpoint the RGBW interpolation builds between them: `lerp` gives
127.5 on the red and green channels and Python `round` takes 127.5 to the
even neighbor 128 = 0x80. -/
noncomputable def c4mid : ColorSolid :=
  ColorSolid.init (some ((128 : ℤ) : ℝ)) (some ((128 : ℤ) : ℝ)) (some ((0 : ℤ) : ℝ))
    (some ((0 : ℤ) : ℝ)) (some 0) (some 1) (some 1) true

/-! ### Theorems for the simpler claims -/

/-- C10: the lerp helper divides by `x1 - x0` with no guard, so it fails
(ZeroDivisionError, modelled as `none`) whenever `x0 = x1`; at the
gradient call sites, which always pass `x0 = 0` and `x1 = 1`, the division
is by 1 and lerp is total, returning `y0 + (y1 - y0) * x` with `x` first
clamped into `[0, 1]`. -/
theorem c10_lerp_total_at_callsites (x c y0 y1 : ℝ) :
    lerp x c c y0 y1 = none ∧
    lerp x 0 1 y0 y1 = some (y0 + (y1 - y0) * (min 1 (max 0 x))) := by
  constructor
  · simp [lerp]
  · simp only [lerp, sub_zero]
    rw [if_neg (by norm_num)]
    by_cases h1 : x > 1
    · rw [if_pos h1]
      rw [if_neg (by norm_num)]
      rw [max_eq_right (by linarith), min_eq_left (by linarith)]
      norm_num
    · rw [if_neg h1]
      by_cases h2 : x < 0
      · rw [if_pos h2]
        rw [max_eq_left (by linarith), min_eq_right (by norm_num)]
        norm_num
      · rw [if_neg h2]
        rw [max_eq_right (by linarith), min_eq_right (by linarith)]
        norm_num

/-- C5 (amended): for both interpolation modes, absent nodes (`None`) give
`None` back; a bare ColorSolid is returned unchanged regardless of steps;
`steps = 0` returns the node list unchanged (also when empty); but an
EMPTY node list with any nonzero step count crashes with an IndexError at
`nodes[-1]` instead of returning an empty result. -/
theorem c5_interp_shortcircuits_amended (s : ℕ) (c : ColorSolid) (l : List ColorSolid) :
    linearInterpHsi .absent s = .retNone ∧
    linearInterpRgbw .absent s = .retNone ∧
    linearInterpHsi (.single c) s = .retSingle c ∧
    linearInterpRgbw (.single c) s = .retSingle c ∧
    linearInterpHsi (.list l) 0 = .retList l ∧
    linearInterpRgbw (.list l) 0 = .retList l ∧
    linearInterpHsi (.list []) (s + 1) = .crash ∧
    linearInterpRgbw (.list []) (s + 1) = .crash := by
  refine ⟨rfl, rfl, rfl, rfl, ?_, ?_, ?_, ?_⟩
  · simp [linearInterpHsi]
  · simp [linearInterpRgbw]
  · simp [linearInterpHsi, optTraverse]
  · simp [linearInterpRgbw, optTraverse]

/-- C5 counterexample: the claim says interpolation of an empty node
sequence returns an empty result, but with `steps = 1` the code crashes
(IndexError on `nodes[-1]`) in both modes, which is neither an empty list
nor `None`. -/
theorem c5_interp_shortcircuits_counterexample :
    linearInterpHsi (.list []) 1 = .crash ∧
    linearInterpRgbw (.list []) 1 = .crash := by
  constructor
  · simp [linearInterpHsi, optTraverse]
  · simp [linearInterpRgbw, optTraverse]

/-- C6 (amended): the constructor decides the representation exactly by
which argument tuple is complete: a complete RGB tuple wins (tagged RGBW
when `enableWhite`, RGB otherwise) even when HSI arguments are also
present; otherwise a complete HSI tuple gives an HSI object; only when
BOTH tuples are incomplete does construction fail, and the failure is a
printed warning leaving an unconfigured object (tag `None`), not an
exception. Because the Python defaults are `hue=0, saturation=1.0,
intensity=1.0`, a call providing only part of an RGB tuple and not
overriding those defaults succeeds as an HSI color instead of failing. -/
theorem c6_construction_amended (r g b w h s i : Option ℝ) (e : Bool) :
    (ColorSolid.init r g b w h s i e).inputType =
      (if r.isSome && g.isSome && b.isSome then
        some (if e then InputType.rgbw else InputType.rgb)
      else if h.isSome && s.isSome && i.isSome then some InputType.hsi
      else none) := by
  cases r <;> cases g <;> cases b <;> cases h <;> cases s <;> cases i <;> cases e <;>
    simp [ColorSolid.init]

/-- C6 counterexample: per the claim (and the spec contract for `fromRgb`),
constructing from `red = 5` with green and blue missing must fail with
InvalidInput; in the code the constructor call (with the default HSI
arguments `hue=0, saturation=1.0, intensity=1.0`) instead succeeds and
yields an HSI-tagged object, discarding the partial RGB input. -/
theorem c6_construction_counterexample :
    (ColorSolid.init (some 5) none none none (some 0) (some 1) (some 1) true).inputType =
      some InputType.hsi := by
  simp [ColorSolid.init]

/-- C9: at the public interface, reading the `white` property returns
`None` whenever `enableWhite` is false, whatever state any sequence of
operations (setters, `enableWhite` toggles, copies) has produced from any
starting object: the getter itself gates on the flag. -/
theorem c9_white_none_invariant (ops : List Op) (c0 : ColorSolid) :
    (applyOps ops c0).1.enableWhite = true ∨
    ColorSolid.whiteGet (applyOps ops c0).1 = none := by
  cases hw : (applyOps ops c0).1.enableWhite
  case false =>
    right
    simp [ColorSolid.whiteGet, hw]
  case true => left; rfl

/-- C8 (amended): on a ColorValue whose `enableWhite` flag is false, a
write of any non-`None` value to `white` is rejected with the printed
WhiteNotEnabled warning and leaves every field of the object unmodified;
but a write of `None` is NOT rejected: it is accepted on any object and
switches the representation tag to RGBW while resynchronizing HSI. -/
theorem c8_setWhite_amended (c : ColorSolid) (w : ℝ) :
    ColorSolid.setWhite { c with enableWhite := false } (some w) =
      ({ c with enableWhite := false }, true) ∧
    (ColorSolid.setWhite c none).2 = false := by
  constructor
  · simp [ColorSolid.setWhite]
  · simp [ColorSolid.setWhite]

/-- C8 counterexample: the claim says EVERY write to `white` on a
white-disabled object fails and leaves the object unmodified. Writing
`None` to a white-disabled RGB object refutes it: the write is not
rejected and the representation tag changes from RGB to RGBW. -/
theorem c8_setWhite_counterexample :
    (ColorSolid.setWhite
      (ColorSolid.init (some 10) (some 20) (some 30) none (some 0) (some 1) (some 1) false)
      none).2 = false ∧
    (ColorSolid.setWhite
      (ColorSolid.init (some 10) (some 20) (some 30) none (some 0) (some 1) (some 1) false)
      none).1.inputType = some InputType.rgbw ∧
    (ColorSolid.init (some 10) (some 20) (some 30) none (some 0) (some 1) (some 1)
      false).inputType = some InputType.rgb := by
  refine ⟨?_, ?_, ?_⟩
  · simp [ColorSolid.setWhite]
  · simp [ColorSolid.setWhite]
  · simp [ColorSolid.init]

/-! ### Supporting lemmas: hex digits, rounding, traversal -/

set_option maxHeartbeats 1000000 in
set_option maxRecDepth 10000 in
/-- For values in [0,256) the 2-wide hex format is exactly the two digit
characters. -/
theorem pyHexPad2_digits : ∀ n : ℕ, n < 256 →
    pyHexPad 2 (n : ℤ) = [hexDigitChar (n / 16), hexDigitChar (n % 16)] := by decide

set_option maxHeartbeats 1000000 in
set_option maxRecDepth 10000 in
/-- Parsing the two digit characters of a value in [0,256) recovers it. -/
theorem pyIntHex_digits : ∀ n : ℕ, n < 256 →
    pyIntHex [hexDigitChar (n / 16), hexDigitChar (n % 16)] = some (n : ℤ) := by decide

/-- The 2-wide hex encoding of an integer in [0,255] is a two-character
field that `int(s, 16)` parses back to the same integer. -/
theorem hex2_spec (z : ℤ) (h0 : 0 ≤ z) (h1 : z ≤ 255) :
    ∃ c1 c2, pyHexPad 2 z = [c1, c2] ∧ pyIntHex [c1, c2] = some z := by
  have hn : z.toNat < 256 := by omega
  have hz : (z.toNat : ℤ) = z := Int.toNat_of_nonneg h0
  refine ⟨hexDigitChar (z.toNat / 16), hexDigitChar (z.toNat % 16), ?_, ?_⟩
  · rw [← hz]
    exact pyHexPad2_digits z.toNat hn
  · rw [pyIntHex_digits z.toNat hn, hz]

/-- `pyRound` of a value in `[z, z + 1/2)` is `z`. -/
theorem pyRound_eq_self (z : ℤ) (x : ℝ) (hl : (z : ℝ) ≤ x) (hr : x < (z : ℝ) + 1 / 2) :
    pyRound x = z := by
  have hf : ⌊x⌋ = z := Int.floor_eq_iff.mpr ⟨hl, by linarith⟩
  unfold pyRound
  rw [hf, if_pos (by linarith)]

/-- `pyRound` of an integer is that integer. -/
theorem pyRound_intCast (z : ℤ) : pyRound ((z : ℤ) : ℝ) = z :=
  pyRound_eq_self z _ le_rfl (by norm_num)

/-- `pyRound` at an exact half rounds to the even neighbor. -/
theorem pyRound_tie (z : ℤ) :
    pyRound ((z : ℝ) + 1 / 2) = if z % 2 = 0 then z else z + 1 := by
  have hf : ⌊(z : ℝ) + 1 / 2⌋ = z := Int.floor_eq_iff.mpr ⟨by linarith, by linarith⟩
  unfold pyRound
  rw [hf, if_neg (by linarith), if_neg (by linarith)]

/-- The traversal fails exactly when some element fails. -/
theorem optTraverse_eq_none {α β : Type} (f : α → Option β) (l : List α) :
    optTraverse f l = none ↔ ∃ a ∈ l, f a = none := by
  induction l with
  | nil => simp [optTraverse]
  | cons a as ih =>
    constructor
    · intro h
      simp only [optTraverse] at h
      cases hfa : f a with
      | none => exact ⟨a, by simp, hfa⟩
      | some b =>
        rw [hfa] at h
        cases ht : optTraverse f as with
        | none =>
          obtain ⟨x, hx, hfx⟩ := ih.mp ht
          exact ⟨x, by simp [hx], hfx⟩
        | some bs => rw [ht] at h; exact absurd h (by simp)
    · rintro ⟨x, hx, hfx⟩
      simp only [optTraverse]
      rcases List.mem_cons.mp hx with rfl | hx2
      · rw [hfx]
      · cases hfa : f a with
        | none => rfl
        | some b => rw [ih.mpr ⟨x, hx2, hfx⟩]

/-- A successful traversal preserves length. -/
theorem optTraverse_length {α β : Type} (f : α → Option β) (l : List α) (ys : List β)
    (h : optTraverse f l = some ys) : ys.length = l.length := by
  induction l generalizing ys with
  | nil => simp [optTraverse] at h; simp [← h]
  | cons a as ih =>
    simp only [optTraverse] at h
    cases hfa : f a with
    | none => rw [hfa] at h; exact absurd h (by simp)
    | some b =>
      rw [hfa] at h
      cases ht : optTraverse f as with
      | none => rw [ht] at h; exact absurd h (by simp)
      | some bs =>
        rw [ht] at h
        simp only [Option.some.injEq] at h
        subst h
        simp [ih bs ht]

/-- Length of the 2-character chunking. -/
theorem chunks2_length : ∀ l : List Char, (chunks2 l).length = (l.length + 1) / 2
  | [] => rfl
  | [_] => by simp [chunks2]
  | _ :: _ :: t => by
    simp only [chunks2, List.length_cons, chunks2_length t]
    omega

/-- Length of the 3-character chunking. -/
theorem chunks3_length : ∀ l : List Char, (chunks3 l).length = (l.length + 2) / 3
  | [] => rfl
  | [_] => by simp [chunks3]
  | [_, _] => by simp [chunks3]
  | _ :: _ :: _ :: t => by
    simp only [chunks3, List.length_cons, chunks3_length t]
    omega

/-- C2: for a fully specified ColorValue in RGB or RGBW form (channels
present and, per the data model of the spec, rounding into [0,255]),
parsing the encoded string yields a ColorValue with the identical
canonical encoding: encoding-based equality round-trips through
`parse` and `toString`. -/
theorem c2_encode_decode_roundtrip (c : ColorSolid) (r g b : ℝ)
    (ht : c.inputType = some InputType.rgb ∨ c.inputType = some InputType.rgbw)
    (hr : c.red = some r) (hg : c.green = some g) (hb : c.blue = some b)
    (hr0 : 0 ≤ pyRound r) (hr1 : pyRound r ≤ 255)
    (hg0 : 0 ≤ pyRound g) (hg1 : pyRound g ≤ 255)
    (hb0 : 0 ≤ pyRound b) (hb1 : pyRound b ≤ 255)
    (hw : ∀ w, ColorSolid.whiteGet c = some w → 0 ≤ pyRound w ∧ pyRound w ≤ 255) :
    ∃ s c2, ColorSolid.toString c none = some s ∧
      ColorSolid.parse s = Except.ok c2 ∧
      ColorSolid.toString c2 none = some s := by
  obtain ⟨a1, a2, hA, hA2⟩ := hex2_spec (pyRound r) hr0 hr1
  obtain ⟨b1, b2, hB, hB2⟩ := hex2_spec (pyRound g) hg0 hg1
  obtain ⟨d1, d2, hD, hD2⟩ := hex2_spec (pyRound b) hb0 hb1
  rcases ht with hcase | hcase
  · refine ⟨String.mk ('c' :: (pyHexPad 2 (pyRound r) ++ pyHexPad 2 (pyRound g) ++
        pyHexPad 2 (pyRound b))),
      ColorSolid.init (some ((pyRound r : ℤ) : ℝ)) (some ((pyRound g : ℤ) : ℝ))
        (some ((pyRound b : ℤ) : ℝ)) none (some 0) (some 1) (some 1) false, ?_, ?_, ?_⟩
    · simp [ColorSolid.toString, hcase, hr, hg, hb]
    · show ColorSolid.parseChars _ = _
      rw [show (String.mk ('c' :: (pyHexPad 2 (pyRound r) ++ pyHexPad 2 (pyRound g) ++
          pyHexPad 2 (pyRound b)))).data = 'c' :: ([a1, a2] ++ [b1, b2] ++ [d1, d2]) by
        rw [hA, hB, hD]]
      simp [ColorSolid.parseChars, pyLower, chunks2, optTraverse, hA2, hB2, hD2,
        show asciiLower 'c' = 'c' from rfl]
    · rw [hA, hB, hD]
      simp [ColorSolid.toString, ColorSolid.init, pyRound_intCast, hA, hB, hD]
  · have hW0 : 0 ≤ pyRound ((ColorSolid.whiteGet c).getD 0) := by
      cases hwg : ColorSolid.whiteGet c with
      | none =>
        simp only [Option.getD_none]
        rw [show (0 : ℝ) = ((0 : ℤ) : ℝ) by norm_num, pyRound_intCast]
      | some w => simpa using (hw w hwg).1
    have hW1 : pyRound ((ColorSolid.whiteGet c).getD 0) ≤ 255 := by
      cases hwg : ColorSolid.whiteGet c with
      | none =>
        simp only [Option.getD_none]
        rw [show (0 : ℝ) = ((0 : ℤ) : ℝ) by norm_num, pyRound_intCast]
        norm_num
      | some w => simpa using (hw w hwg).2
    obtain ⟨e1, e2, hE, hE2⟩ := hex2_spec (pyRound ((ColorSolid.whiteGet c).getD 0)) hW0 hW1
    refine ⟨String.mk ('c' :: (pyHexPad 2 (pyRound r) ++ pyHexPad 2 (pyRound g) ++
        pyHexPad 2 (pyRound b) ++ pyHexPad 2 (pyRound ((ColorSolid.whiteGet c).getD 0)))),
      ColorSolid.init (some ((pyRound r : ℤ) : ℝ)) (some ((pyRound g : ℤ) : ℝ))
        (some ((pyRound b : ℤ) : ℝ)) (some ((pyRound ((ColorSolid.whiteGet c).getD 0) : ℤ) : ℝ))
        (some 0) (some 1) (some 1) true, ?_, ?_, ?_⟩
    · simp [ColorSolid.toString, hcase, hr, hg, hb]
    · show ColorSolid.parseChars _ = _
      rw [show (String.mk ('c' :: (pyHexPad 2 (pyRound r) ++ pyHexPad 2 (pyRound g) ++
          pyHexPad 2 (pyRound b) ++ pyHexPad 2 (pyRound ((ColorSolid.whiteGet c).getD 0))))).data =
          'c' :: ([a1, a2] ++ [b1, b2] ++ [d1, d2] ++ [e1, e2]) by
        rw [hA, hB, hD, hE]]
      simp [ColorSolid.parseChars, pyLower, chunks2, optTraverse, hA2, hB2, hD2, hE2,
        show asciiLower 'c' = 'c' from rfl]
    · rw [hA, hB, hD, hE]
      have hE2' : pyHexPad 2 (pyRound ((if c.enableWhite = true then c.white else none).getD 0)) =
          [e1, e2] := by
        simpa [ColorSolid.whiteGet] using hE
      simp [ColorSolid.toString, ColorSolid.init, ColorSolid.whiteGet, pyRound_intCast,
        hA, hB, hD, hE2']

/-- C2 witness: the round-trip at the concrete RGB color (16, 32, 48). -/
theorem c2_encode_decode_roundtrip_witness :
    ∃ s c2, ColorSolid.toString
        (ColorSolid.init (some 16) (some 32) (some 48) none (some 0) (some 1) (some 1) false)
        none = some s ∧
      ColorSolid.parse s = Except.ok c2 ∧
      ColorSolid.toString c2 none = some s := by
  have h16 : pyRound (16 : ℝ) = 16 := by
    rw [show (16 : ℝ) = ((16 : ℤ) : ℝ) by norm_num, pyRound_intCast]
  have h32 : pyRound (32 : ℝ) = 32 := by
    rw [show (32 : ℝ) = ((32 : ℤ) : ℝ) by norm_num, pyRound_intCast]
  have h48 : pyRound (48 : ℝ) = 48 := by
    rw [show (48 : ℝ) = ((48 : ℤ) : ℝ) by norm_num, pyRound_intCast]
  exact c2_encode_decode_roundtrip
    (ColorSolid.init (some 16) (some 32) (some 48) none (some 0) (some 1) (some 1) false)
    16 32 48
    (Or.inl (by simp [ColorSolid.init]))
    (by simp [ColorSolid.init]) (by simp [ColorSolid.init]) (by simp [ColorSolid.init])
    (by rw [h16]; norm_num) (by rw [h16]; norm_num)
    (by rw [h32]; norm_num) (by rw [h32]; norm_num)
    (by rw [h48]; norm_num) (by rw [h48]; norm_num)
    (by
      intro w hwg
      simp [ColorSolid.whiteGet, ColorSolid.init] at hwg)

/-- Decomposition of a list of length 3. -/
theorem list_length_three {α : Type} (l : List α) (h : l.length = 3) :
    ∃ a b c, l = [a, b, c] := by
  rcases l with _ | ⟨a, _ | ⟨b, _ | ⟨c, _ | ⟨d, t⟩⟩⟩⟩ <;> simp at h
  exact ⟨a, b, c, rfl⟩

/-- Decomposition of a list of length 4. -/
theorem list_length_four {α : Type} (l : List α) (h : l.length = 4) :
    ∃ a b c d, l = [a, b, c, d] := by
  rcases l with _ | ⟨a, _ | ⟨b, _ | ⟨c, _ | ⟨d, _ | ⟨e, t⟩⟩⟩⟩⟩ <;> simp at h
  exact ⟨a, b, c, d, rfl⟩

/-- `parseChars` fails exactly on `specDecodeFail`. -/
theorem parseChars_error_iff (l : List Char) :
    (∃ e, ColorSolid.parseChars l = Except.error e) ↔ specDecodeFail l := by
  by_cases h1 : l.length ≤ 1
  · refine iff_of_true ⟨.raised, by simp [ColorSolid.parseChars, h1]⟩ (Or.inl h1)
  by_cases hc : (pyLower l).head? = some 'c'
  · by_cases hlen : l.length = 7 ∨ l.length = 9
    · cases hm : optTraverse pyIntHex (chunks2 (l.drop 1)) with
      | none =>
        have hmT : optTraverse pyIntHex (chunks2 l.tail) = none := by
          rw [← List.drop_one]
          exact hm
        refine iff_of_true ⟨.raised, ?_⟩ ?_
        · rcases hlen with h7 | h9
          · simp [ColorSolid.parseChars, h1, hc, h7, hmT]
          · simp [ColorSolid.parseChars, h1, hc, h9, hmT]
        · exact Or.inr (Or.inr (Or.inr (Or.inr (Or.inr (Or.inl
            ⟨hc, hlen, (optTraverse_eq_none _ _).mp hm⟩)))))
      | some vals =>
        have hnofail : ¬ ∃ f ∈ chunks2 (l.drop 1), pyIntHex f = none := by
          rw [← optTraverse_eq_none, hm]
          simp
        have hmT : optTraverse pyIntHex (chunks2 l.tail) = some vals := by
          rw [← List.drop_one]
          exact hm
        have hvl : vals.length = (chunks2 (l.drop 1)).length :=
          optTraverse_length _ _ _ hm
        rw [chunks2_length, List.length_drop] at hvl
        refine iff_of_false ?_ ?_
        · rcases hlen with h7 | h9
          · obtain ⟨a, b, c', rfl⟩ := list_length_three vals (by rw [hvl, h7])
            simp [ColorSolid.parseChars, h1, hc, h7, hmT]
          · obtain ⟨a, b, c', d, rfl⟩ := list_length_four vals (by rw [hvl, h9])
            simp [ColorSolid.parseChars, h1, hc, h9, hmT]
        · rintro (hbad | ⟨hbad, -⟩ | ⟨-, hbad⟩ | ⟨hbad, -⟩ | ⟨hbad, -⟩ |
            ⟨-, -, hbad⟩ | ⟨hbad, -⟩ | ⟨hbad, -⟩)
          · exact h1 hbad
          · exact hbad hc
          · exact hbad hlen
          · rw [hc] at hbad; simp at hbad
          · rw [hc] at hbad; simp at hbad
          · exact hnofail hbad
          · rw [hc] at hbad; simp at hbad
          · rw [hc] at hbad; simp at hbad
    · refine iff_of_true ⟨.printedNone, by simp [ColorSolid.parseChars, h1, hc, hlen]⟩
        (Or.inr (Or.inr (Or.inl ⟨hc, hlen⟩)))
  by_cases hh : (pyLower l).head? = some 'h'
  · by_cases hw : (pyLower l).getLast? = some 'w'
    · by_cases h11 : l.length = 11
      · cases hm : optTraverse pyIntHex (chunks3 (l.dropLast.drop 1)) with
        | none =>
          have hmT : optTraverse pyIntHex (chunks3 l.dropLast.tail) = none := by
            rw [← List.drop_one]
            exact hm
          refine iff_of_true ⟨.raised, by simp [ColorSolid.parseChars, h1, hc, hh, hw, h11, hmT]⟩
            (Or.inr (Or.inr (Or.inr (Or.inr (Or.inr (Or.inr (Or.inl
              ⟨hh, hw, h11, (optTraverse_eq_none _ _).mp hm⟩)))))))
        | some vals =>
          have hnofail : ¬ ∃ f ∈ chunks3 (l.dropLast.drop 1), pyIntHex f = none := by
            rw [← optTraverse_eq_none, hm]
            simp
          have hmT : optTraverse pyIntHex (chunks3 l.dropLast.tail) = some vals := by
            rw [← List.drop_one]
            exact hm
          have hvl : vals.length = (chunks3 (l.dropLast.drop 1)).length :=
            optTraverse_length _ _ _ hm
          rw [chunks3_length, List.length_drop, List.length_dropLast, h11] at hvl
          obtain ⟨a, b, c', rfl⟩ := list_length_three vals (by rw [hvl])
          refine iff_of_false ?_ ?_
          · simp [ColorSolid.parseChars, h1, hc, hh, hw, h11, hmT]
          · rintro (hbad | ⟨-, hbad⟩ | ⟨hbad, -⟩ | ⟨-, -, hbad⟩ | ⟨-, hbad, -⟩ |
              ⟨hbad, -⟩ | ⟨-, -, -, hbad⟩ | ⟨-, hbad, -⟩)
            · exact h1 hbad
            · exact hbad hh
            · rw [hh] at hbad; simp at hbad
            · exact hbad h11
            · exact hbad hw
            · rw [hh] at hbad; simp at hbad
            · exact hnofail hbad
            · exact hbad hw
      · refine iff_of_true ⟨.printedNone, by simp [ColorSolid.parseChars, h1, hc, hh, hw, h11]⟩
          (Or.inr (Or.inr (Or.inr (Or.inl ⟨hh, hw, h11⟩))))
    · by_cases h10 : l.length = 10
      · cases hm : optTraverse pyIntHex (chunks3 (l.drop 1)) with
        | none =>
          have hmT : optTraverse pyIntHex (chunks3 l.tail) = none := by
            rw [← List.drop_one]
            exact hm
          refine iff_of_true ⟨.raised, by simp [ColorSolid.parseChars, h1, hc, hh, hw, h10, hmT]⟩
            (Or.inr (Or.inr (Or.inr (Or.inr (Or.inr (Or.inr (Or.inr
              ⟨hh, hw, h10, (optTraverse_eq_none _ _).mp hm⟩)))))))
        | some vals =>
          have hnofail : ¬ ∃ f ∈ chunks3 (l.drop 1), pyIntHex f = none := by
            rw [← optTraverse_eq_none, hm]
            simp
          have hmT : optTraverse pyIntHex (chunks3 l.tail) = some vals := by
            rw [← List.drop_one]
            exact hm
          have hvl : vals.length = (chunks3 (l.drop 1)).length :=
            optTraverse_length _ _ _ hm
          rw [chunks3_length, List.length_drop, h10] at hvl
          obtain ⟨a, b, c', rfl⟩ := list_length_three vals (by rw [hvl])
          refine iff_of_false ?_ ?_
          · simp [ColorSolid.parseChars, h1, hc, hh, hw, h10, hmT]
          · rintro (hbad | ⟨-, hbad⟩ | ⟨hbad, -⟩ | ⟨-, hbad, -⟩ | ⟨-, -, hbad⟩ |
              ⟨hbad, -⟩ | ⟨-, hbad, -⟩ | ⟨-, -, -, hbad⟩)
            · exact h1 hbad
            · exact hbad hh
            · rw [hh] at hbad; simp at hbad
            · exact hw hbad
            · exact hbad h10
            · rw [hh] at hbad; simp at hbad
            · exact hw hbad
            · exact hnofail hbad
      · refine iff_of_true ⟨.printedNone, by simp [ColorSolid.parseChars, h1, hc, hh, hw, h10]⟩
          (Or.inr (Or.inr (Or.inr (Or.inr (Or.inl ⟨hh, hw, h10⟩)))))
  · refine iff_of_true ⟨.printedNone, by simp [ColorSolid.parseChars, h1, hc, hh]⟩
      (Or.inr (Or.inl ⟨hc, hh⟩))

/-! ### The C4 gradient evaluation -/

/-- `lerp` at the call-site bounds `x0 = 0`, `x1 = 1` with `p` already in
`[0, 1]`: no clamping, value `y0 + (y1 - y0) * p`. -/
theorem lerp01_eval (p y0 y1 : ℝ) (h0 : 0 ≤ p) (h1 : p ≤ 1) :
    lerp p 0 1 y0 y1 = some (y0 + (y1 - y0) * p) := by
  simp only [lerp]
  rw [if_neg (show ¬ p > 1 from by linarith)]
  rw [if_neg (show ¬ p < 0 from by linarith)]
  rw [if_neg (show ¬ (1 : ℝ) - 0 = 0 from by norm_num)]
  norm_num

/-- The single pair block of the C4 gradient produces exactly the rounded
midpoint. -/
theorem c4block : rgbwBlock true 1 c4nodeA c4nodeB = some [c4mid] := by
  have hpr : pyRound ((255 : ℝ) / 2) = 128 := by
    rw [show (255 : ℝ) / 2 = ((127 : ℤ) : ℝ) + 1 / 2 by norm_num, pyRound_tie]
    norm_num
  have hpr0 : pyRound (0 : ℝ) = 0 := by
    rw [show (0 : ℝ) = ((0 : ℤ) : ℝ) by norm_num]
    exact pyRound_intCast 0
  norm_num [rgbwBlock, show List.range 1 = [0] from rfl, optTraverse, c4nodeA, c4nodeB, c4mid,
    ColorSolid.init, ColorSolid.whiteGet, lerp01_eval, hpr, hpr0]

/-- The full RGBW interpolation of the C4 gradient: start node, rounded
midpoint, and the copied final node retagged RGBW (whose fields coincide
with the final node). -/
theorem c4interpEval : linearInterpRgbw (PyNodes.list [c4nodeA, c4nodeB]) 1 =
    InterpResult.retList [c4nodeA, c4mid, c4nodeB] := by
  have hA : c4nodeA.enableWhite = true := by simp [c4nodeA, ColorSolid.init]
  have hB : c4nodeB.enableWhite = true := by simp [c4nodeB, ColorSolid.init]
  have hIT : c4nodeB.inputType = some InputType.rgbw := by simp [c4nodeB, ColorSolid.init]
  have hlast : [c4nodeA, c4nodeB].getLast? = some c4nodeB := rfl
  simp only [linearInterpRgbw, List.any_cons, List.any_nil, hA, hB, Bool.true_or, Bool.or_false,
    List.tail_cons, List.zip_cons_cons, List.zip_nil_right, optTraverse, c4block, Option.map_some,
    hlast, ColorSolid.copy, hIT]
  simp [c4nodeA, c4nodeB, c4mid, ColorSolid.init, ColorSolid.whiteGet]

/-- The canonical encodings of the three gradient colors. -/
theorem c4mapEval : [c4nodeA, c4mid, c4nodeB].map (fun c => ColorSolid.toString c none) =
    [some ("cff000000"), some ("c80800000"), some ("c00ff0000")] := by
  have h255 : pyHexPad 2 (255 : ℤ) = ['f', 'f'] := rfl
  have h128 : pyHexPad 2 (128 : ℤ) = ['8', '0'] := rfl
  have h0 : pyHexPad 2 (0 : ℤ) = ['0', '0'] := rfl
  have hR255 : pyRound (255 : ℝ) = 255 := by
    rw [show (255 : ℝ) = ((255 : ℤ) : ℝ) by norm_num]
    exact pyRound_intCast 255
  have hR128 : pyRound (128 : ℝ) = 128 := by
    rw [show (128 : ℝ) = ((128 : ℤ) : ℝ) by norm_num]
    exact pyRound_intCast 128
  have hR0 : pyRound (0 : ℝ) = 0 := by
    rw [show (0 : ℝ) = ((0 : ℤ) : ℝ) by norm_num]
    exact pyRound_intCast 0
  simp only [List.map_cons, List.map_nil]
  refine congrArg₂ _ ?_ (congrArg₂ _ ?_ (congrArg₂ _ ?_ rfl))
  · simp only [ColorSolid.toString, c4nodeA, ColorSolid.init, ColorSolid.whiteGet]
    norm_num [hR255, hR0, h255, h0]
    rintro (h | h) <;> exact absurd h (by simp)
  · simp only [ColorSolid.toString, c4mid, ColorSolid.init, ColorSolid.whiteGet]
    norm_num [hR128, hR0, h128, h0]
    rintro (h | h) <;> exact absurd h (by simp)
  · simp only [ColorSolid.toString, c4nodeB, ColorSolid.init, ColorSolid.whiteGet]
    norm_num [hR255, hR0, h255, h0]
    rintro (h | h) <;> exact absurd h (by simp)

/-- C4 (amended): the RGBW-mode gradient between the nodes decoded from
`cff000000` and `c00ff0000` with `steps = 1` produces exactly the
three-color sequence whose encodings are `cff000000`, `c80800000`,
`c00ff0000`: the middle color has red and green channels 0x80 (128, since
Python `round` takes the interpolated 127.5 to the even neighbor 128) and
blue and white channels 0. -/
theorem c4_rgbw_gradient_amended :
    ∃ a b out, ColorSolid.parse ("cff000000") = Except.ok a ∧
      ColorSolid.parse ("c00ff0000") = Except.ok b ∧
      linearInterpRgbw (PyNodes.list [a, b]) 1 = InterpResult.retList out ∧
      out.map (fun c => ColorSolid.toString c none) =
        [some ("cff000000"), some ("c80800000"), some ("c00ff0000")] :=
  ⟨c4nodeA, c4nodeB, [c4nodeA, c4mid, c4nodeB], rfl, rfl, c4interpEval, c4mapEval⟩

/-- C4 counterexample: the claim names `c7f7f0000` (127, truncation of
127.5) as the middle encoding, but the gradient the code computes between
the decoded nodes has middle encoding `c80800000`: its encoding list is
not the claimed one. -/
theorem c4_rgbw_gradient_counterexample :
    ∃ a b out, ColorSolid.parse ("cff000000") = Except.ok a ∧
      ColorSolid.parse ("c00ff0000") = Except.ok b ∧
      linearInterpRgbw (PyNodes.list [a, b]) 1 = InterpResult.retList out ∧
      ¬ (out.map (fun c => ColorSolid.toString c none) =
        [some ("cff000000"), some ("c7f7f0000"), some ("c00ff0000")]) :=
  ⟨c4nodeA, c4nodeB, [c4nodeA, c4mid, c4nodeB], rfl, rfl, c4interpEval, by
    rw [c4mapEval]
    decide⟩

/-! ### The C1/C3 hue computation at (255, 255, 128) -/

/-- Full evaluation of `rgb2hsi` at (255, 255, 128): the code computes
`acos(((r-g)+(r-b))/2 * sqrt(...)) = acos(16129/130050)` (about 82.9
degrees) because line 340 multiplies the half-sum by the square root;
saturation is `127/319` and the returned intensity the unnormalized sum
`638/255`. -/
theorem rgb2hsi_255_255_128 :
    ColorSolid.rgb2hsi 255 255 128 =
      (Real.arccos (16129 / 130050) * 180 / Real.pi, 127 / 319, 638 / 255) := by
  have hs : Real.sqrt (((255 : ℝ) / 255 - 255 / 255) * (255 / 255 - 255 / 255) +
      (255 / 255 - 128 / 255) * (255 / 255 - 128 / 255)) = 127 / 255 := by
    rw [show ((255 : ℝ) / 255 - 255 / 255) * (255 / 255 - 255 / 255) +
        (255 / 255 - 128 / 255) * (255 / 255 - 128 / 255) = (127 / 255) ^ 2 by norm_num]
    exact Real.sqrt_sq (by norm_num)
  simp only [ColorSolid.rgb2hsi, hs]
  norm_num [min_def, max_def]

/-- The claimed formula gives hue 60 degrees at the normalized channels of
(255, 255, 128). -/
theorem hueClaim_eval : hueClaimFormula 1 1 (128 / 255) = 60 := by
  have hs : Real.sqrt (((1 : ℝ) - 1) * (1 - 1) + (1 - 128 / 255) * (1 - 128 / 255)) = 127 / 255 := by
    rw [show ((1 : ℝ) - 1) * (1 - 1) + (1 - 128 / 255) * (1 - 128 / 255) = (127 / 255) ^ 2 by
      norm_num]
    exact Real.sqrt_sq (by norm_num)
  simp only [hueClaimFormula, hs]
  rw [show (((1 : ℝ) - 1) + (1 - 128 / 255)) / (2 * (127 / 255)) = 1 / 2 by norm_num]
  rw [show (1 / 2 : ℝ) = Real.cos (Real.pi / 3) from Real.cos_pi_div_three.symm]
  rw [Real.arccos_cos (by positivity) (by linarith [Real.pi_pos])]
  norm_num [min_def, max_def]
  field_simp
  ring

/-- C3: on the failing input (255, 255, 128) (normalized channels
(1, 1, 128/255)), the code's hue is `acos(16129/130050) * 180 / pi` while
the claimed quotient formula gives 60 degrees, and the two differ: line
340 multiplies the half-sum by the square root instead of dividing by
twice the square root. -/
theorem c3_hue_formula_code_bug :
    (ColorSolid.rgb2hsi 255 255 128).1 = Real.arccos (16129 / 130050) * 180 / Real.pi ∧
    hueClaimFormula 1 1 (128 / 255) = 60 ∧
    (ColorSolid.rgb2hsi 255 255 128).1 ≠ hueClaimFormula 1 1 (128 / 255) := by
  refine ⟨by rw [rgb2hsi_255_255_128], hueClaim_eval, ?_⟩
  rw [rgb2hsi_255_255_128, hueClaim_eval]
  intro heq
  have hpi : Real.pi ≠ 0 := Real.pi_ne_zero
  have harc : Real.arccos ((16129 : ℝ) / 130050) = Real.pi / 3 := by
    field_simp at heq
    linarith
  have hco := Real.cos_arccos (by norm_num : (-1 : ℝ) ≤ 16129 / 130050) (by norm_num)
  rw [harc, Real.cos_pi_div_three] at hco
  norm_num at hco

/-- The red channel `hsi2rgb` reconstructs from the HSI triple that
`rgb2hsi` returned for (255, 255, 128) is below 254 (numerically it is
about 89.2): the wrong hue of about 82.9 degrees lands far from the
original red of 255. -/
theorem c1_red_lt :
    (ColorSolid.hsi2rgb (Real.arccos (16129 / 130050) * 180 / Real.pi)
      (127 / 319) (638 / 255)).1 < 254 := by
  set α := Real.arccos ((16129 : ℝ) / 130050) with hα
  have ha0 : 0 ≤ α := Real.arccos_nonneg _
  have ha1 : α ≤ Real.pi := Real.arccos_le_pi _
  have hcos : Real.cos α = 16129 / 130050 :=
    Real.cos_arccos (by norm_num) (by norm_num)
  have hsin : Real.sin α = Real.sqrt (1 - (16129 / 130050) ^ 2) := by
    rw [hα, Real.sin_arccos]
  have hsinpos : 0 < Real.sin α := by
    rw [hsin]
    exact Real.sqrt_pos.mpr (by norm_num)
  have hmod : pyMod (α * 180 / Real.pi) 360 = α * 180 / Real.pi := by
    have h0 : 0 ≤ α * 180 / Real.pi / 360 := by positivity
    have h1' : α * 180 / Real.pi / 360 < 1 := by
      rw [div_lt_one (by norm_num : (0 : ℝ) < 360), div_lt_iff₀ Real.pi_pos]
      nlinarith [Real.pi_pos]
    unfold pyMod
    rw [Int.floor_eq_zero_iff.mpr (Set.mem_Ico.mpr ⟨h0, h1'⟩)]
    push_cast
    ring
  have hrad : Real.pi * (α * 180 / Real.pi) / 180 = α := by field_simp
  have hsector : α < 2 / 3 * Real.pi := by
    by_contra hge
    push_neg at hge
    have hle : Real.cos α ≤ Real.cos (2 / 3 * Real.pi) :=
      Real.cos_le_cos_of_nonneg_of_le_pi (by positivity) ha1 hge
    rw [show (2 / 3 : ℝ) * Real.pi = Real.pi - Real.pi / 3 by ring, Real.cos_pi_sub,
      Real.cos_pi_div_three, hcos] at hle
    norm_num at hle
  have hc : Real.cos (Real.pi / 3 - α) =
      (1 / 2) * (16129 / 130050) + Real.sqrt 3 / 2 * Real.sin α := by
    rw [Real.cos_sub, Real.cos_pi_div_three, Real.sin_pi_div_three, hcos]
  have hs3 : 0 < Real.sqrt 3 := Real.sqrt_pos.mpr (by norm_num)
  have hcpos : 0 < Real.cos (Real.pi / 3 - α) := by
    rw [hc]
    positivity
  have hratio : Real.cos α / Real.cos (Real.pi / 3 - α) < 2 := by
    rw [div_lt_iff₀ hcpos, hc, hcos]
    nlinarith [mul_pos hs3 hsinpos]
  have hratio0 : 0 < Real.cos α / Real.cos (Real.pi / 3 - α) := by
    apply div_pos _ hcpos
    rw [hcos]
    norm_num
  simp only [ColorSolid.hsi2rgb, hmod, hrad]
  rw [if_pos (by norm_num : (127 : ℝ) / 319 > 0), if_pos (by norm_num : (127 : ℝ) / 319 < 1)]
  rw [if_pos (by norm_num : (638 : ℝ) / 255 > 0), if_pos (by norm_num : (638 : ℝ) / 255 < 3)]
  rw [if_pos hsector]
  have hkey : (127 : ℝ) / 319 * Real.cos α / Real.cos (Real.pi / 3 - α) =
      127 / 319 * (Real.cos α / Real.cos (Real.pi / 3 - α)) := by ring
  have hrpre : (127 : ℝ) / 319 * (638 / 255) / 3 *
      (1 + 127 / 319 * Real.cos α / Real.cos (Real.pi / 3 - α)) * 255 < 254 := by
    rw [hkey]
    nlinarith [hratio, hratio0]
  have hrpre0 : (0 : ℝ) < 127 / 319 * (638 / 255) / 3 *
      (1 + 127 / 319 * Real.cos α / Real.cos (Real.pi / 3 - α)) * 255 := by
    rw [hkey]
    nlinarith [hratio0]
  dsimp only
  rw [if_pos hrpre0, if_pos (lt_trans hrpre (by norm_num : (254 : ℝ) < 255))]
  exact hrpre

/-- C1: the round-trip `hsi2rgb (rgb2hsi r g b)` does NOT reproduce the
input within one unit per channel: at (255, 255, 128) the reconstructed
red channel differs from the original 255 by more than 1 (it is below
254; numerically about 89.2). The cause is the hue transcription slip of
rgb2hsi line 340 (multiplication instead of division by the square root),
which contradicts the converter source the code comment cites. -/
theorem c1_rgb_hsi_roundtrip_code_bug :
    1 < |(ColorSolid.hsi2rgb (ColorSolid.rgb2hsi 255 255 128).1
      (ColorSolid.rgb2hsi 255 255 128).2.1 (ColorSolid.rgb2hsi 255 255 128).2.2).1 - 255| := by
  rw [rgb2hsi_255_255_128]
  dsimp only
  have h := c1_red_lt
  rw [abs_sub_comm, abs_of_pos (by linarith)]
  linarith

/-- The radicand under the hue square root is a nonnegative quadratic
form, so `sqrt` itself never receives a negative argument. -/
theorem hue_radicand_nonneg (r g b : ℝ) :
    0 ≤ (r - g) * (r - g) + (r - b) * (g - b) := by
  nlinarith [sq_nonneg (b - g), sq_nonneg (r - g), sq_nonneg (r - b)]

/-- Python float `%` with modulus 360 lands in `[0, 360)`. -/
theorem pyMod_360_mem (x : ℝ) : 0 ≤ pyMod x 360 ∧ pyMod x 360 < 360 := by
  have h : pyMod x 360 = 360 * Int.fract (x / 360) := by
    unfold pyMod Int.fract
    ring
  constructor
  · rw [h]
    have := Int.fract_nonneg (x / 360)
    linarith
  · rw [h]
    have := Int.fract_lt_one (x / 360)
    linarith

/-- The sector cosine `cos(pi/3 - hue)` is positive in every branch of
`hsi2rgb` / `hsi2rgbw` (the shifted hue stays within `(-pi/6, pi/2)` of
`pi/3`), so the HSI-to-RGB direction never divides by zero and
`hsiSectorRaises` is never true. -/
theorem hsiSector_no_raise (h : ℝ) : ¬ ColorSolid.hsiSectorRaises h := by
  obtain ⟨hm0, hm1⟩ := pyMod_360_mem h
  have hpi := Real.pi_pos
  have hr0 : 0 ≤ Real.pi * pyMod h 360 / 180 := by
    have := mul_nonneg hpi.le hm0
    linarith
  have hr1 : Real.pi * pyMod h 360 / 180 < 2 * Real.pi := by
    have := mul_lt_mul_of_pos_left hm1 hpi
    linarith
  unfold ColorSolid.hsiSectorRaises
  simp only
  split_ifs with h1 h2
  · have hmem : Real.pi / 3 - Real.pi * pyMod h 360 / 180 ∈
        Set.Ioo (-(Real.pi / 2)) (Real.pi / 2) := by
      constructor
      · simp only [Set.mem_Ioo] at *
        nlinarith
      · nlinarith
    exact ne_of_gt (Real.cos_pos_of_mem_Ioo hmem)
  · have hmem : Real.pi / 3 - (Real.pi * pyMod h 360 / 180 - 2 / 3 * Real.pi) ∈
        Set.Ioo (-(Real.pi / 2)) (Real.pi / 2) := by
      push_neg at h1
      constructor
      · nlinarith
      · nlinarith
    exact ne_of_gt (Real.cos_pos_of_mem_Ioo hmem)
  · have hmem : Real.pi / 3 - (Real.pi * pyMod h 360 / 180 - 4 / 3 * Real.pi) ∈
        Set.Ioo (-(Real.pi / 2)) (Real.pi / 2) := by
      push_neg at h1 h2
      constructor
      · nlinarith
      · nlinarith
    exact ne_of_gt (Real.cos_pos_of_mem_Ioo hmem)

/-- Failure characterization of the crash-faithful decoder: an error
(exception or printed-`None` return) exactly on `specDecodeFailFull`. -/
theorem parseCharsFull_error_iff (l : List Char) :
    (∃ e, ColorSolid.parseCharsFull l = Except.error e) ↔ specDecodeFailFull l := by
  by_cases h1 : l.length ≤ 1
  · exact iff_of_true ⟨.raised, by simp [ColorSolid.parseCharsFull, h1]⟩ (Or.inl (Or.inl h1))
  by_cases hc : (pyLower l).head? = some 'c'
  · by_cases hlen : l.length = 7 ∨ l.length = 9
    · cases hm : optTraverse pyIntHex (chunks2 (l.drop 1)) with
      | none =>
        have hmT : optTraverse pyIntHex (chunks2 l.tail) = none := by
          rw [← List.drop_one]
          exact hm
        refine iff_of_true ⟨.raised, ?_⟩ (Or.inl (Or.inr (Or.inr (Or.inr (Or.inr (Or.inr (Or.inl
          ⟨hc, hlen, (optTraverse_eq_none _ _).mp hm⟩)))))))
        rcases hlen with h7 | h9
        · simp [ColorSolid.parseCharsFull, h1, hc, h7, hmT]
        · simp [ColorSolid.parseCharsFull, h1, hc, h9, hmT]
      | some vals =>
        have hmT : optTraverse pyIntHex (chunks2 l.tail) = some vals := by
          rw [← List.drop_one]
          exact hm
        have hnofail : ¬ ∃ f ∈ chunks2 (l.drop 1), pyIntHex f = none := by
          rw [← optTraverse_eq_none, hm]
          simp
        have hvl : vals.length = (chunks2 (l.drop 1)).length :=
          optTraverse_length _ _ _ hm
        rw [chunks2_length, List.length_drop] at hvl
        rcases hlen with h7 | h9
        · obtain ⟨a, b, c', rfl⟩ := list_length_three vals (by rw [hvl, h7])
          by_cases hr : ColorSolid.rgb2hsiRaises (a : ℝ) (b : ℝ) (c' : ℝ)
          · refine iff_of_true ⟨.raised, ?_⟩ (Or.inr (Or.inl ⟨hc, h7, a, b, c', hm, hr⟩))
            simp [ColorSolid.parseCharsFull, h1, hc, h7, hmT, hr]
          · refine iff_of_false ?_ ?_
            · simp [ColorSolid.parseCharsFull, h1, hc, h7, hmT, hr]
            · rintro ((hbad | ⟨hbad, -⟩ | ⟨-, hbad⟩ | ⟨hbad, -⟩ | ⟨hbad, -⟩ |
                ⟨-, -, hbad⟩ | ⟨hbad, -⟩ | ⟨hbad, -⟩) |
                ⟨-, -, r', g', b', heq, hr'⟩ | ⟨-, h9', -⟩)
              · exact h1 hbad
              · exact hbad hc
              · exact hbad (Or.inl h7)
              · rw [hc] at hbad
                simp at hbad
              · rw [hc] at hbad
                simp at hbad
              · exact hnofail hbad
              · rw [hc] at hbad
                simp at hbad
              · rw [hc] at hbad
                simp at hbad
              · rw [hm] at heq
                simp only [Option.some.injEq, List.cons.injEq, and_true] at heq
                obtain ⟨rfl, rfl, rfl⟩ := heq
                exact hr hr'
              · rw [h7] at h9'
                simp at h9'
        · obtain ⟨a, b, c', d, rfl⟩ := list_length_four vals (by rw [hvl, h9])
          by_cases hr : ColorSolid.rgbw2hsiRaises (some (a : ℝ)) (some (b : ℝ)) (some (c' : ℝ))
              (some (d : ℝ))
          · refine iff_of_true ⟨.raised, ?_⟩ (Or.inr (Or.inr ⟨hc, h9, a, b, c', d, hm, hr⟩))
            simp [ColorSolid.parseCharsFull, h1, hc, h9, hmT, hr]
          · refine iff_of_false ?_ ?_
            · simp [ColorSolid.parseCharsFull, h1, hc, h9, hmT, hr]
            · rintro ((hbad | ⟨hbad, -⟩ | ⟨-, hbad⟩ | ⟨hbad, -⟩ | ⟨hbad, -⟩ |
                ⟨-, -, hbad⟩ | ⟨hbad, -⟩ | ⟨hbad, -⟩) |
                ⟨-, h7', -⟩ | ⟨-, -, r', g', b', w', heq, hr'⟩)
              · exact h1 hbad
              · exact hbad hc
              · exact hbad (Or.inr h9)
              · rw [hc] at hbad
                simp at hbad
              · rw [hc] at hbad
                simp at hbad
              · exact hnofail hbad
              · rw [hc] at hbad
                simp at hbad
              · rw [hc] at hbad
                simp at hbad
              · rw [h9] at h7'
                simp at h7'
              · rw [hm] at heq
                simp only [Option.some.injEq, List.cons.injEq, and_true] at heq
                obtain ⟨rfl, rfl, rfl, rfl⟩ := heq
                exact hr hr'
    · refine iff_of_true ⟨.printedNone, by simp [ColorSolid.parseCharsFull, h1, hc, hlen]⟩
        (Or.inl (Or.inr (Or.inr (Or.inl ⟨hc, hlen⟩))))
  by_cases hh : (pyLower l).head? = some 'h'
  · by_cases hw : (pyLower l).getLast? = some 'w'
    · by_cases h11 : l.length = 11
      · cases hm : optTraverse pyIntHex (chunks3 (l.dropLast.drop 1)) with
        | none =>
          have hmT : optTraverse pyIntHex (chunks3 l.dropLast.tail) = none := by
            rw [← List.drop_one]
            exact hm
          refine iff_of_true
            ⟨.raised, by simp [ColorSolid.parseCharsFull, h1, hc, hh, hw, h11, hmT]⟩
            (Or.inl (Or.inr (Or.inr (Or.inr (Or.inr (Or.inr (Or.inr (Or.inl
              ⟨hh, hw, h11, (optTraverse_eq_none _ _).mp hm⟩))))))))
        | some vals =>
          have hmT : optTraverse pyIntHex (chunks3 l.dropLast.tail) = some vals := by
            rw [← List.drop_one]
            exact hm
          have hnofail : ¬ ∃ f ∈ chunks3 (l.dropLast.drop 1), pyIntHex f = none := by
            rw [← optTraverse_eq_none, hm]
            simp
          have hvl : vals.length = (chunks3 (l.dropLast.drop 1)).length :=
            optTraverse_length _ _ _ hm
          rw [chunks3_length, List.length_drop, List.length_dropLast, h11] at hvl
          obtain ⟨a, b, c', rfl⟩ := list_length_three vals (by rw [hvl])
          refine iff_of_false ?_ ?_
          · simp [ColorSolid.parseCharsFull, h1, hc, hh, hw, h11, hmT, hsiSector_no_raise]
          · rintro ((hbad | ⟨-, hbad⟩ | ⟨hbad, -⟩ | ⟨-, -, hbad⟩ | ⟨-, hbad, -⟩ |
              ⟨hbad, -⟩ | ⟨-, -, -, hbad⟩ | ⟨-, hbad, -⟩) | ⟨hbad, -⟩ | ⟨hbad, -⟩)
            · exact h1 hbad
            · exact hbad hh
            · rw [hh] at hbad
              simp at hbad
            · exact hbad h11
            · exact hbad hw
            · rw [hh] at hbad
              simp at hbad
            · exact hnofail hbad
            · exact hbad hw
            · rw [hh] at hbad
              simp at hbad
            · rw [hh] at hbad
              simp at hbad
      · refine iff_of_true
          ⟨.printedNone, by simp [ColorSolid.parseCharsFull, h1, hc, hh, hw, h11]⟩
          (Or.inl (Or.inr (Or.inr (Or.inr (Or.inl ⟨hh, hw, h11⟩)))))
    · by_cases h10 : l.length = 10
      · cases hm : optTraverse pyIntHex (chunks3 (l.drop 1)) with
        | none =>
          have hmT : optTraverse pyIntHex (chunks3 l.tail) = none := by
            rw [← List.drop_one]
            exact hm
          refine iff_of_true
            ⟨.raised, by simp [ColorSolid.parseCharsFull, h1, hc, hh, hw, h10, hmT]⟩
            (Or.inl (Or.inr (Or.inr (Or.inr (Or.inr (Or.inr (Or.inr (Or.inr
              ⟨hh, hw, h10, (optTraverse_eq_none _ _).mp hm⟩))))))))
        | some vals =>
          have hmT : optTraverse pyIntHex (chunks3 l.tail) = some vals := by
            rw [← List.drop_one]
            exact hm
          have hnofail : ¬ ∃ f ∈ chunks3 (l.drop 1), pyIntHex f = none := by
            rw [← optTraverse_eq_none, hm]
            simp
          have hvl : vals.length = (chunks3 (l.drop 1)).length :=
            optTraverse_length _ _ _ hm
          rw [chunks3_length, List.length_drop, h10] at hvl
          obtain ⟨a, b, c', rfl⟩ := list_length_three vals (by rw [hvl])
          refine iff_of_false ?_ ?_
          · simp [ColorSolid.parseCharsFull, h1, hc, hh, hw, h10, hmT, hsiSector_no_raise]
          · rintro ((hbad | ⟨-, hbad⟩ | ⟨hbad, -⟩ | ⟨-, hbad, -⟩ | ⟨-, -, hbad⟩ |
              ⟨hbad, -⟩ | ⟨-, hbad, -⟩ | ⟨-, -, -, hbad⟩) | ⟨hbad, -⟩ | ⟨hbad, -⟩)
            · exact h1 hbad
            · exact hbad hh
            · rw [hh] at hbad
              simp at hbad
            · exact hw hbad
            · exact hbad h10
            · rw [hh] at hbad
              simp at hbad
            · exact hw hbad
            · exact hnofail hbad
            · rw [hh] at hbad
              simp at hbad
            · rw [hh] at hbad
              simp at hbad
      · refine iff_of_true
          ⟨.printedNone, by simp [ColorSolid.parseCharsFull, h1, hc, hh, hw, h10]⟩
          (Or.inl (Or.inr (Or.inr (Or.inr (Or.inr (Or.inl ⟨hh, hw, h10⟩))))))
  · refine iff_of_true ⟨.printedNone, by simp [ColorSolid.parseCharsFull, h1, hc, hh]⟩
      (Or.inl (Or.inr (Or.inl ⟨hc, hh⟩)))

/-- On channels (255, -15, -15) - the decode of `cff-f-f`, since
`int` accepts signed hex fields - the `acos` argument of line 340 is
`(18/17) * sqrt((18/17)^2)`. -/
theorem rgb2hsiAcosArg_at_255_m15 :
    ColorSolid.rgb2hsiAcosArg (255 : ℝ) (-15 : ℝ) (-15 : ℝ) =
      18 / 17 * Real.sqrt ((18 / 17) ^ 2) := by
  simp only [ColorSolid.rgb2hsiAcosArg]
  norm_num

/-- That argument is `324/289 > 1`, so `rgb2hsi(255, -15, -15)` raises
ValueError in `math.acos`. -/
theorem rgb2hsiRaises_at_255_m15 :
    ColorSolid.rgb2hsiRaises (255 : ℝ) (-15 : ℝ) (-15 : ℝ) := by
  have h := rgb2hsiAcosArg_at_255_m15
  rw [Real.sqrt_sq (by norm_num : (0 : ℝ) ≤ 18 / 17)] at h
  unfold ColorSolid.rgb2hsiRaises ColorSolid.acosDomain
  rw [h]
  norm_num

/-- On channels (-5, 0, 0) with white 5 - the decode of `c-5000005` -
the channel sum plus white is 0, so the saturation quotient of line 262
raises ZeroDivisionError. -/
theorem rgbw2hsiRaises_at_m5_0_0_5 :
    ColorSolid.rgbw2hsiRaises (some (-5 : ℝ)) (some (0 : ℝ))
      (some (0 : ℝ)) (some (5 : ℝ)) := by
  simp only [ColorSolid.rgbw2hsiRaises, Option.getD_some]
  norm_num

/-- C7: (amended) decode fails, yielding no usable value, exactly when
the input has length at most 1 (raised exception), the prefix is neither
`c` nor `h`, a `c` string has length other than 7 or 9, an `h` string has
length other than 10 (no trailing `w`) or 11 (with trailing `w`), some
hex field fails `int(.,16)`, or - beyond the claim's explicit list - the
parsed channels of a `c` string make the constructor's RGB-to-HSI
conversion raise: a 7-character string whose triple sends the line 340
`acos` argument outside `[-1, 1]` (ValueError), or a 9-character string
whose quadruple raises in `rgbw2hsi` (ValueError or ZeroDivisionError).
These numeric failures are reachable because hex fields may be signed.
Decoded `h` strings never raise beyond the explicit list
(`hsiSector_no_raise`). Every failure is an explicit result (an exception
or a printed-`None` return, both distinguishable from a parsed color),
never a silent success. -/
theorem c7_parse_failure_conditions_amended (s : String) :
    (∃ e, ColorSolid.parseFull s = Except.error e) ↔ specDecodeFailFull s.data :=
  parseCharsFull_error_iff s.data

/-- C7 counterexample to the original failure list: decoding `cff-f-f`
(channels 255, -15, -15: the `acos` argument is `324/289 > 1`, a
ValueError) and decoding `c-5000005` (channels -5, 0, 0 and white 5:
channel sum plus white is 0, a ZeroDivisionError on line 262) both raise,
yet neither input satisfies `specDecodeFail`, the claim's list of failure
conditions. -/
theorem c7_parse_failure_conditions_counterexample :
    (∃ e, ColorSolid.parseFull ("cff-f-f") = Except.error e) ∧
    ¬ specDecodeFail (String.data ("cff-f-f")) ∧
    (∃ e, ColorSolid.parseFull ("c-5000005") = Except.error e) ∧
    ¬ specDecodeFail (String.data ("c-5000005")) := by
  refine ⟨⟨.raised, ?_⟩, ?_, ⟨.raised, ?_⟩, ?_⟩
  · have h1 : ¬ (String.data ("cff-f-f")).length ≤ 1 := by decide
    have hc : (pyLower (String.data ("cff-f-f"))).head? = some 'c' := by decide
    have h7 : (String.data ("cff-f-f")).length = 7 := by decide
    have hm : optTraverse pyIntHex (chunks2 ((String.data ("cff-f-f")).drop 1)) =
        some [255, -15, -15] := by decide
    rw [show ColorSolid.parseFull ("cff-f-f") =
      ColorSolid.parseCharsFull (String.data ("cff-f-f")) from rfl]
    simp only [ColorSolid.parseCharsFull, h1, hc, h7, hm]
    norm_num
    exact fun hn => absurd rgb2hsiRaises_at_255_m15 hn
  · unfold specDecodeFail
    decide
  · have h1 : ¬ (String.data ("c-5000005")).length ≤ 1 := by decide
    have hc : (pyLower (String.data ("c-5000005"))).head? = some 'c' := by decide
    have h9 : (String.data ("c-5000005")).length = 9 := by decide
    have hm : optTraverse pyIntHex (chunks2 ((String.data ("c-5000005")).drop 1)) =
        some [-5, 0, 0, 5] := by decide
    rw [show ColorSolid.parseFull ("c-5000005") =
      ColorSolid.parseCharsFull (String.data ("c-5000005")) from rfl]
    simp only [ColorSolid.parseCharsFull, h1, hc, h9, hm]
    norm_num
    exact fun hn => absurd rgbw2hsiRaises_at_m5_0_0_5 hn
  · unfold specDecodeFail
    decide
